import Mathlib

/-!
# Verification of the re_scraper ingestion pipeline

A shallow embedding, in Lean 4, of the parts of the `re_scraper` repository
that the specification's claims are about:

* `src/src/etl/deduplication.py` — `DeduplicationEngine` (similarity scoring,
  duplicate detection, address fingerprints);
* `src/src/etl/transform.py` — `PropertyTransformer`;
* `src/real-estate-scraper-backend/src/etl/data_transformer.py` — `DataTransformer`;
* `src/src/etl/data_validator.py` — `DataValidator`;
* `src/src/etl/data_processor.py` — `DataProcessor` (batch stages);
* `src/src/scrapers/base_scraper.py` — `BaseScraper._apply_rate_limiting`.

Modelling conventions:

* Python numbers (`int` / `float`) are modelled as `ℚ`; the `int` / `float`
  distinction (e.g. `str(5)` vs `str(5.0)`) is collapsed.
* Python dicts are association lists with first-occurrence lookup; insertion
  replaces an existing key in place, as in CPython.
* `md5` digests are modelled by their preimage (the normalized string that is
  hashed): all the claims concern only equality or inequality of fingerprints,
  and the digest is injective on the inputs of interest.
* Wall-clock time (`time.time()`, `datetime.utcnow()`) is an explicit
  parameter; `random` jitter is an explicit input.
* `difflib.SequenceMatcher.ratio()` is modelled by the documented algorithm
  (recursive longest-matching-block decomposition); the `autojunk` heuristic,
  which only fires on strings of length ≥ 200, is not modelled.
* Python exceptions are modelled with `Except Unit`; `try/except` blocks
  become a `match` on the result.
-/

/-! ## Python string primitives -/

theorem length_dropWhile_le {α : Type} (p : α → Bool) (l : List α) :
    (l.dropWhile p).length ≤ l.length := by
  induction l with
  | nil => simp
  | cons c t ih =>
    by_cases h : p c
    · simpa [List.dropWhile, h] using Nat.le_succ_of_le ih
    · simp [List.dropWhile, h]

theorem length_takeWhile_le {α : Type} (p : α → Bool) (l : List α) :
    (l.takeWhile p).length ≤ l.length := by
  induction l with
  | nil => simp
  | cons c t ih =>
    by_cases h : p c
    · simpa [List.takeWhile, h] using Nat.succ_le_succ ih
    · simp [List.takeWhile, h]

/-- The characters Python's `str.strip()` and `\s` treat as whitespace. -/
def isPyWs (c : Char) : Bool :=
  c = ' ' ∨ c = '\t' ∨ c = '\n' ∨ c = '\r' ∨ c = '\x0b' ∨ c = '\x0c'

/-- ASCII `\w` (word character) for `\b` word boundaries. -/
def isWordChar (c : Char) : Bool := c.isAlphanum ∨ c = '_'

/-- `str.strip()` on a character list. -/
def pyStripChars (l : List Char) : List Char :=
  ((l.dropWhile isPyWs).reverse.dropWhile isPyWs).reverse

/-- `str.lower()` (ASCII). -/
def pyLowerChars (l : List Char) : List Char := l.map Char.toLower

/-- `str.upper()` (ASCII). -/
def pyUpperChars (l : List Char) : List Char := l.map Char.toUpper

/-- `str.capitalize()`: first character upper-cased, the rest lower-cased. -/
def pyCapitalizeChars : List Char → List Char
  | [] => []
  | c :: r => c.toUpper :: r.map Char.toLower

/-- `re.sub(r'\s+', ' ', s)`: collapse every whitespace run to one space.
Structural recursion on a fuel parameter (each step consumes at least one
character, so `fuel = l.length` always suffices and the fuel-exhausted
branch is unreachable from the wrapper). -/
def collapseWsGo : ℕ → List Char → List Char
  | 0, l => l
  | _ + 1, [] => []
  | fuel + 1, c :: rest =>
    if isPyWs c then ' ' :: collapseWsGo fuel (rest.dropWhile isPyWs)
    else c :: collapseWsGo fuel rest

def collapseWsChars (l : List Char) : List Char := collapseWsGo l.length l

/-- Remainder of the list after the first `'>'`, if any. -/
def afterGt : List Char → Option (List Char)
  | [] => Option.none
  | c :: r => if c = '>' then some r else afterGt r

/-- If `'<' :: l` starts an HTML tag `<[^>]+>`, the remainder after the
closing `'>'`; otherwise `none`. -/
def tagRemainder : List Char → Option (List Char)
  | [] => Option.none
  | c :: r => if c = '>' then Option.none else afterGt r

/-- `re.sub(r'<[^>]+>', '', s)`: drop HTML tags (fuelled). -/
def removeTagsGo : ℕ → List Char → List Char
  | 0, l => l
  | _ + 1, [] => []
  | fuel + 1, c :: rest =>
    if c = '<' then
      match tagRemainder rest with
      | some r => removeTagsGo fuel r
      | Option.none => c :: removeTagsGo fuel rest
    else c :: removeTagsGo fuel rest

def removeTagsChars (l : List Char) : List Char := removeTagsGo l.length l

/-- `str.replace(pat, rep)`: global left-to-right non-overlapping replacement,
never rescanning replaced text (for nonempty `pat`; empty `pat` is identity,
unlike Python, but is never used with an empty pattern here). -/
def replaceAllGo (pat rep : List Char) : ℕ → List Char → List Char
  | 0, l => l
  | _ + 1, [] => []
  | fuel + 1, c :: rest =>
    if pat ≠ [] ∧ pat.isPrefixOf (c :: rest) then
      rep ++ replaceAllGo pat rep fuel ((c :: rest).drop pat.length)
    else c :: replaceAllGo pat rep fuel rest

def replaceAllChars (pat rep l : List Char) : List Char :=
  replaceAllGo pat rep l.length l

/-- The part of the list before the first occurrence of `sep`
(`str.split(sep)[0]` for nonempty `sep`). -/
def beforeSubChars (sep : List Char) : List Char → List Char
  | [] => []
  | c :: rest =>
    if sep ≠ [] ∧ sep.isPrefixOf (c :: rest) then []
    else c :: beforeSubChars sep rest

/-- `str.split()` with no argument: split on whitespace runs, dropping
empty pieces. -/
def splitWsGo : ℕ → List Char → List (List Char)
  | 0, _ => []
  | fuel + 1, l =>
    let l' := l.dropWhile isPyWs
    let w := l'.takeWhile (fun c => ¬ isPyWs c)
    if w = [] then [] else w :: splitWsGo fuel (l'.drop w.length)

def splitWsChars (l : List Char) : List (List Char) := splitWsGo (l.length + 1) l

/-- Join a list of words with single spaces (`' '.join(ws)`). -/
def joinSpaces : List (List Char) → List Char
  | [] => []
  | [w] => w
  | w :: rest => w ++ ' ' :: joinSpaces rest

/-- Decimal digits of a natural number. -/
def natDigitsRepr (n : ℕ) : List Char := (toString n).data

/-- Value of a list of decimal digit characters. -/
def digitsVal (l : List Char) : ℕ :=
  l.foldl (fun n c => n * 10 + (c.toNat - 48)) 0

/-- Smallest `k ≤ bound` with `d ∣ 10^k`, if any. -/
def decExponent (d : ℕ) : ℕ → Option ℕ
  | 0 => if d ∣ 1 then some 0 else Option.none
  | k + 1 =>
    match decExponent d k with
    | some j => some j
    | Option.none => if d ∣ 10 ^ (k + 1) then some (k + 1) else Option.none

/-- Zero-pad a digit list on the left to length `k`. -/
def padLeftZeros (k : ℕ) (l : List Char) : List Char :=
  List.replicate (k - l.length) '0' ++ l

/-- `str()` of a Python number, with `int` and integral `float` collapsed.
Terminating decimals are rendered exactly; other rationals (which no Python
float equals) are truncated to 18 fractional digits. -/
def ratRepr (q : ℚ) : List Char :=
  let sign : List Char := if q < 0 then ['-'] else []
  let n : ℕ := q.num.natAbs
  let d : ℕ := q.den
  if d = 1 then sign ++ natDigitsRepr n
  else
    let k := (decExponent d 18).getD 18
    let scaled := n * 10 ^ k / d
    let ip := scaled / 10 ^ k
    let fp := scaled % 10 ^ k
    sign ++ natDigitsRepr ip ++ '.' :: padLeftZeros k (natDigitsRepr fp)

/-- `float(s)`: optional sign, decimal mantissa, optional exponent.
(`inf` / `nan` / embedded underscores are not modelled.) -/
def pyFloatChars (l0 : List Char) : Option ℚ :=
  let l := pyStripChars l0
  let (sgn, l1) : ℚ × List Char :=
    match l with
    | '-' :: r => (-1, r)
    | '+' :: r => (1, r)
    | r => (1, r)
  let ip := l1.takeWhile Char.isDigit
  let r1 := l1.drop ip.length
  let (mant, r2) : Option ℚ × List Char :=
    match r1 with
    | '.' :: rtail =>
      let fp := rtail.takeWhile Char.isDigit
      if ip.isEmpty ∧ fp.isEmpty then (Option.none, rtail)
      else (some ((digitsVal ip : ℚ) + (digitsVal fp : ℚ) / 10 ^ fp.length),
            rtail.drop fp.length)
    | _ => (if ip.isEmpty then Option.none else some (digitsVal ip : ℚ), r1)
  match mant with
  | Option.none => Option.none
  | some m =>
    match r2 with
    | [] => some (sgn * m)
    | e :: r3 =>
      if e = 'e' ∨ e = 'E' then
        let (esgn, r4) : ℤ × List Char :=
          match r3 with
          | '-' :: r => (-1, r)
          | '+' :: r => (1, r)
          | r => (1, r)
        let ed := r4.takeWhile Char.isDigit
        if ed.isEmpty ∨ ¬ (r4.drop ed.length).isEmpty then Option.none
        else some (sgn * m * (10 : ℚ) ^ (esgn * (digitsVal ed : ℤ)))
      else Option.none

/-- `int()` applied to a float: truncation toward zero. -/
def pyTrunc (q : ℚ) : ℚ := if 0 ≤ q then (⌊q⌋ : ℚ) else (⌈q⌉ : ℚ)

/-- String wrappers. -/
def pyStrip (s : String) : String := ⟨pyStripChars s.data⟩

def pyLower (s : String) : String := ⟨pyLowerChars s.data⟩

def pyUpper (s : String) : String := ⟨pyUpperChars s.data⟩

def pyFloatStr (s : String) : Option ℚ := pyFloatChars s.data

/-- Substring occurrence check (Python `sub in s` on character lists). -/
def subOccurs (sub : List Char) : List Char → Bool
  | [] => sub.isEmpty
  | c :: rest => sub.isPrefixOf (c :: rest) ∨ subOccurs sub rest

/-- Python `sub in s`. -/
def pyContains (s sub : String) : Bool := subOccurs sub.data s.data

/-! ## Regex emulation

Each regular expression used by the transformers is a concrete pattern whose
backtracking behaviour is deterministic (shrinking a greedy quantifier can
never make the remainder match), so `re.search` is modelled by a left-to-right
scan taking maximal runs. -/

/-- `re.search(r'(\d{5})', s)`: the leftmost run of five digits. -/
def find5Digits : List Char → Option (List Char)
  | [] => Option.none
  | c :: rest =>
    if ((c :: rest).take 5).all Char.isDigit ∧ 5 ≤ (c :: rest).length
    then some ((c :: rest).take 5)
    else find5Digits rest

def isDigitComma (c : Char) : Bool := c.isDigit ∨ c = ','

def isDigitDot (c : Char) : Bool := c.isDigit ∨ c = '.'

/-- The group `[\d,]+\.?\d*` anchored at the head of the list, if it matches
there (greedy, no backtracking needed since nothing follows the group). -/
def numGroupAt (l : List Char) : Option (List Char) :=
  let run := l.takeWhile isDigitComma
  if run = [] then Option.none
  else
    match l.drop run.length with
    | '.' :: r2 => some (run ++ '.' :: r2.takeWhile Char.isDigit)
    | _ => some run

/-- Group of the leftmost match of `\$?([\d,]+\.?\d*)` (`price_patterns[0]`). -/
def findPrice1 : List Char → Option (List Char)
  | [] => Option.none
  | c :: rest =>
    match numGroupAt (c :: rest) with
    | some g => some g
    | Option.none =>
      if c = '$' then
        match numGroupAt rest with
        | some g => some g
        | Option.none => findPrice1 rest
      else findPrice1 rest

/-- `\s*(?:dollars?|usd|\$)` matches at the head of the list. -/
def dollarSuffixAt (l : List Char) : Bool :=
  let r := l.dropWhile isPyWs
  "dollar".data.isPrefixOf r ∨ "usd".data.isPrefixOf r ∨ "$".data.isPrefixOf r

/-- Group of the leftmost match of `([\d,]+\.?\d*)\s*(?:dollars?|usd|\$)`
(`price_patterns[1]`). -/
def findPrice2 : List Char → Option (List Char)
  | [] => Option.none
  | c :: rest =>
    match numGroupAt (c :: rest) with
    | some g => if dollarSuffixAt ((c :: rest).drop g.length) then some g
                else findPrice2 rest
    | Option.none => findPrice2 rest

/-- Group of the leftmost match of `(\d+)\s*(?:bed|bedroom|br|bd)`
(`bed_patterns[0]`; `bed_patterns[1]` `(\d+)br` is subsumed by it). -/
def findBed : List Char → Option (List Char)
  | [] => Option.none
  | c :: rest =>
    let run := (c :: rest).takeWhile Char.isDigit
    let after := ((c :: rest).drop run.length).dropWhile isPyWs
    if run ≠ [] ∧ ("bed".data.isPrefixOf after ∨ "br".data.isPrefixOf after ∨
        "bd".data.isPrefixOf after)
    then some run
    else findBed rest

/-- Group of the leftmost match of `([\d.]+)\s*(?:bath|bathroom|ba)`
(`bath_patterns[0]`). -/
def findBath1 : List Char → Option (List Char)
  | [] => Option.none
  | c :: rest =>
    let run := (c :: rest).takeWhile isDigitDot
    let after := ((c :: rest).drop run.length).dropWhile isPyWs
    if run ≠ [] ∧ ("bath".data.isPrefixOf after ∨ "bathroom".data.isPrefixOf after ∨
        "ba".data.isPrefixOf after)
    then some run
    else findBath1 rest

/-- Group of the leftmost match of `([\d.]+)ba` (`bath_patterns[1]`). -/
def findBath2 : List Char → Option (List Char)
  | [] => Option.none
  | c :: rest =>
    let run := (c :: rest).takeWhile isDigitDot
    if run ≠ [] ∧ "ba".data.isPrefixOf ((c :: rest).drop run.length)
    then some run
    else findBath2 rest

/-- `\s*(?:sq\.?\s*ft\.?|sqft|square\s*feet)` matches at the head. -/
def sqftSuffixAt (l : List Char) : Bool :=
  let r := l.dropWhile isPyWs
  (if "sq".data.isPrefixOf r then
    let r1 := r.drop 2
    let r2 := match r1 with | '.' :: t => t | t => t
    "ft".data.isPrefixOf (r2.dropWhile isPyWs)
   else false) ∨
  (if "square".data.isPrefixOf r then
    "feet".data.isPrefixOf ((r.drop 6).dropWhile isPyWs)
   else false)

/-- Group of the leftmost match of
`([\d,]+\.?\d*)\s*(?:sq\.?\s*ft\.?|sqft|square\s*feet)` (`sqft_patterns[0]`). -/
def findSqft1 : List Char → Option (List Char)
  | [] => Option.none
  | c :: rest =>
    match numGroupAt (c :: rest) with
    | some g => if sqftSuffixAt ((c :: rest).drop g.length) then some g
                else findSqft1 rest
    | Option.none => findSqft1 rest

/-- Group of the leftmost match of `([\d,]+\.?\d*)\s*sf` (`sqft_patterns[1]`). -/
def findSqft2 : List Char → Option (List Char)
  | [] => Option.none
  | c :: rest =>
    match numGroupAt (c :: rest) with
    | some g => if "sf".data.isPrefixOf (((c :: rest).drop g.length).dropWhile isPyWs)
                then some g
                else findSqft2 rest
    | Option.none => findSqft2 rest

/-- `re.sub(rf'\b{pat}\b', rep, s, flags=IGNORECASE)` for an alphabetic
pattern `pat` (given lower-cased): word-bounded, case-insensitive, global,
left to right, not rescanning replaced text. `prevWord` records whether the
character before the scan position (in the original string) is a `\w`
character. -/
def noWordAt : List Char → Bool
  | [] => true
  | d :: _ => ¬ isWordChar d

def replaceWordCIGo (pat rep : List Char) : ℕ → Bool → List Char → List Char
  | 0, _, l => l
  | _ + 1, _, [] => []
  | fuel + 1, prevWord, c :: rest =>
    if pat ≠ [] ∧ pyLowerChars ((c :: rest).take pat.length) = pat ∧
       prevWord = false ∧ noWordAt ((c :: rest).drop pat.length) = true then
      rep ++ replaceWordCIGo pat rep fuel true ((c :: rest).drop pat.length)
    else c :: replaceWordCIGo pat rep fuel (isWordChar c) rest

def replaceWordCI (pat rep : List Char) (prevWord : Bool) (l : List Char) :
    List Char :=
  replaceWordCIGo pat rep l.length prevWord l

/-- `re.match(r'^\d{5}(-\d{4})?$', s)` (anchored zip test). -/
def matchZipShape (l : List Char) : Bool :=
  (l.length = 5 ∧ l.all Char.isDigit) ∨
  (l.length = 10 ∧ (l.take 5).all Char.isDigit ∧ l.get? 5 = some '-' ∧
    (l.drop 6).all Char.isDigit)

/-! ## Python values and records

A scraped record is a Python dict with heterogeneous values. `Val.num`
models both `int` and `float` (as `ℚ`); `Val.none` is Python `None`. -/

inductive Val where
  | str (s : String)
  | num (q : ℚ)
  | bool (b : Bool)
  | none
  | list (l : List Val)
  | dict (d : List (String × Val))

mutual

def valBEq : Val → Val → Bool
  | .str a, .str b => a == b
  | .num a, .num b => a == b
  | .bool a, .bool b => a == b
  | .none, .none => true
  | .list a, .list b => valListBEq a b
  | .dict a, .dict b => valDictBEq a b
  | _, _ => false

def valListBEq : List Val → List Val → Bool
  | [], [] => true
  | a :: as, b :: bs => valBEq a b && valListBEq as bs
  | _, _ => false

def valDictBEq : List (String × Val) → List (String × Val) → Bool
  | [], [] => true
  | (k1, v1) :: as, (k2, v2) :: bs => k1 == k2 && valBEq v1 v2 && valDictBEq as bs
  | _, _ => false

end

mutual

theorem valBEq_sound : (a b : Val) → valBEq a b = true → a = b
  | .str x, .str y, h => by simp [valBEq] at h; rw [h]
  | .num x, .num y, h => by simp [valBEq] at h; rw [h]
  | .bool x, .bool y, h => by simp [valBEq] at h; rw [h]
  | .none, .none, _ => rfl
  | .list x, .list y, h => by
      rw [valListBEq_sound x y (by simpa [valBEq] using h)]
  | .dict x, .dict y, h => by
      rw [valDictBEq_sound x y (by simpa [valBEq] using h)]
  | .str _, .num _, h => by simp [valBEq] at h
  | .str _, .bool _, h => by simp [valBEq] at h
  | .str _, .none, h => by simp [valBEq] at h
  | .str _, .list _, h => by simp [valBEq] at h
  | .str _, .dict _, h => by simp [valBEq] at h
  | .num _, .str _, h => by simp [valBEq] at h
  | .num _, .bool _, h => by simp [valBEq] at h
  | .num _, .none, h => by simp [valBEq] at h
  | .num _, .list _, h => by simp [valBEq] at h
  | .num _, .dict _, h => by simp [valBEq] at h
  | .bool _, .str _, h => by simp [valBEq] at h
  | .bool _, .num _, h => by simp [valBEq] at h
  | .bool _, .none, h => by simp [valBEq] at h
  | .bool _, .list _, h => by simp [valBEq] at h
  | .bool _, .dict _, h => by simp [valBEq] at h
  | .none, .str _, h => by simp [valBEq] at h
  | .none, .num _, h => by simp [valBEq] at h
  | .none, .bool _, h => by simp [valBEq] at h
  | .none, .list _, h => by simp [valBEq] at h
  | .none, .dict _, h => by simp [valBEq] at h
  | .list _, .str _, h => by simp [valBEq] at h
  | .list _, .num _, h => by simp [valBEq] at h
  | .list _, .bool _, h => by simp [valBEq] at h
  | .list _, .none, h => by simp [valBEq] at h
  | .list _, .dict _, h => by simp [valBEq] at h
  | .dict _, .str _, h => by simp [valBEq] at h
  | .dict _, .num _, h => by simp [valBEq] at h
  | .dict _, .bool _, h => by simp [valBEq] at h
  | .dict _, .none, h => by simp [valBEq] at h
  | .dict _, .list _, h => by simp [valBEq] at h

theorem valListBEq_sound : (x y : List Val) → valListBEq x y = true → x = y
  | [], [], _ => rfl
  | a :: as, b :: bs, h => by
      simp only [valListBEq, Bool.and_eq_true] at h
      rw [valBEq_sound a b h.1, valListBEq_sound as bs h.2]
  | [], _ :: _, h => by simp [valListBEq] at h
  | _ :: _, [], h => by simp [valListBEq] at h

theorem valDictBEq_sound :
    (x y : List (String × Val)) → valDictBEq x y = true → x = y
  | [], [], _ => rfl
  | (k1, v1) :: as, (k2, v2) :: bs, h => by
      simp only [valDictBEq, Bool.and_eq_true] at h
      have hk : k1 = k2 := by
        have := h.1.1
        simpa [beq_iff_eq] using this
      rw [hk, valBEq_sound v1 v2 h.1.2, valDictBEq_sound as bs h.2]
  | [], _ :: _, h => by simp [valDictBEq] at h
  | _ :: _, [], h => by simp [valDictBEq] at h

end

mutual

theorem valBEq_refl : (a : Val) → valBEq a a = true
  | .str x => by simp [valBEq]
  | .num x => by simp [valBEq]
  | .bool x => by simp [valBEq]
  | .none => rfl
  | .list x => by simpa [valBEq] using valListBEq_refl x
  | .dict x => by simpa [valBEq] using valDictBEq_refl x

theorem valListBEq_refl : (x : List Val) → valListBEq x x = true
  | [] => rfl
  | a :: as => by
      simp only [valListBEq, Bool.and_eq_true]
      exact ⟨valBEq_refl a, valListBEq_refl as⟩

theorem valDictBEq_refl : (x : List (String × Val)) → valDictBEq x x = true
  | [] => rfl
  | (k, v) :: as => by
      simp only [valDictBEq, Bool.and_eq_true]
      exact ⟨⟨by simp, valBEq_refl v⟩, valDictBEq_refl as⟩

end

instance : DecidableEq Val := fun a b =>
  decidable_of_iff (valBEq a b = true)
    ⟨valBEq_sound a b, fun h => h ▸ valBEq_refl a⟩

/-- A Python dict: association list with first-occurrence lookup (CPython
dicts have unique keys; operations here preserve that). -/
abbrev Record := List (String × Val)

/-- `data.get(k)` (`None` when absent). -/
def getPy (r : Record) (k : String) : Val := (r.lookup k).getD Val.none

/-- `data.get(k, d)`. -/
def getPyD (r : Record) (k : String) (d : Val) : Val := (r.lookup k).getD d

/-- `k in data`. -/
def hasKey (r : Record) (k : String) : Bool := (r.map Prod.fst).contains k

/-- `data[k] = v`: replace in place, else append. -/
def setPy (r : Record) (k : String) (v : Val) : Record :=
  if hasKey r k then r.map (fun p => if p.1 = k then (k, v) else p)
  else r ++ [(k, v)]

/-- Projection away from a key. -/
def erasePy (r : Record) (k : String) : Record :=
  r.filter (fun p => p.1 ≠ k)

/-- Python truthiness. -/
def pyTruthy : Val → Bool
  | .str s => s ≠ ""
  | .num q => q ≠ 0
  | .bool b => b
  | .none => false
  | .list l => !l.isEmpty
  | .dict d => !d.isEmpty

/-! ### `str()` / `repr()` of values -/

mutual

/-- Python `str()`. -/
def pyStrV : Val → String
  | .str s => s
  | .num q => ⟨ratRepr q⟩
  | .bool b => if b then "True" else "False"
  | .none => "None"
  | .list l => "[" ++ String.intercalate ", " (pyReprList l) ++ "]"
  | .dict d => "\x7b" ++ String.intercalate ", " (pyReprDict d) ++ "\x7d"

/-- Python `repr()` (as used when rendering containers). -/
def pyReprV : Val → String
  | .str s => String.singleton '\'' ++ s ++ String.singleton '\''
  | .num q => ⟨ratRepr q⟩
  | .bool b => if b then "True" else "False"
  | .none => "None"
  | .list l => "[" ++ String.intercalate ", " (pyReprList l) ++ "]"
  | .dict d => "\x7b" ++ String.intercalate ", " (pyReprDict d) ++ "\x7d"

def pyReprList : List Val → List String
  | [] => []
  | v :: rest => pyReprV v :: pyReprList rest

def pyReprDict : List (String × Val) → List String
  | [] => []
  | (k, v) :: rest =>
    (String.singleton '\'' ++ k ++ String.singleton '\'' ++ ": " ++ pyReprV v) ::
      pyReprDict rest

end

/-! ## `DataTransformer`
(`src/real-estate-scraper-backend/src/etl/data_transformer.py`) -/

namespace DataTransformer

def text_fields : List String :=
  ["description", "street_address", "city", "neighborhood", "county"]

def lowercase_words : List String :=
  ["of", "the", "and", "or", "but", "in", "on", "at", "to", "for", "with"]

def uppercase_words : List String :=
  ["NE", "NW", "SE", "SW", "N", "S", "E", "W", "US", "USA"]

def title_case_word (i : ℕ) (w : List Char) : List Char :=
  if uppercase_words.contains ⟨pyUpperChars w⟩ then pyUpperChars w
  else if 0 < i ∧ lowercase_words.contains ⟨pyLowerChars w⟩ then pyLowerChars w
  else pyCapitalizeChars w

/-- `DataTransformer._title_case_address`. -/
def title_case_address (s : String) : String :=
  ⟨joinSpaces ((splitWsChars s.data).mapIdx title_case_word)⟩

def address_like_fields : List String :=
  ["street_address", "city", "neighborhood", "county"]

/-- Body of the loop in `DataTransformer._clean_text_fields`. -/
def clean_text_value (field : String) (v : Val) : Val :=
  let t0 := pyStripChars (pyStrV v).data
  let t1 := collapseWsChars t0
  let t2 := removeTagsChars t1
  let t3 := replaceAllChars ['\n'] [' '] t2
  let t4 := replaceAllChars ['\t'] [' '] t3
  if address_like_fields.contains field then Val.str (title_case_address ⟨t4⟩)
  else Val.str ⟨t4⟩

/-- `DataTransformer._clean_text_fields`. -/
def clean_text_fields (r : Record) : Record :=
  text_fields.foldl
    (fun r f =>
      if hasKey r f ∧ pyTruthy (getPy r f)
      then setPy r f (clean_text_value f (getPy r f)) else r)
    r

/-- `DataTransformer._parse_price`. -/
def parse_price (price_text : String) : Option ℚ :=
  if price_text = "" then Option.none
  else
    let c0 := pyStripChars (replaceAllChars [','] []
                (replaceAllChars ['$'] [] price_text.data))
    let c1 := if subOccurs ['-'] c0 then pyStripChars (beforeSubChars ['-'] c0) else c0
    let c2 := if subOccurs ['p', 'e', 'r'] (pyLowerChars c1)
              then pyStripChars (beforeSubChars ['p', 'e', 'r'] c1) else c1
    let kCase : Option ℚ :=
      if c2.getLast? = some 'K' ∨ c2.getLast? = some 'k'
      then (pyFloatChars c2.dropLast).map (· * 1000) else Option.none
    match kCase with
    | some q => some q
    | Option.none =>
      let mCase : Option ℚ :=
        if c2.getLast? = some 'M' ∨ c2.getLast? = some 'm'
        then (pyFloatChars c2.dropLast).map (· * 1000000) else Option.none
      match mCase with
      | some q => some q
      | Option.none => pyFloatChars c2

def price_fields : List String := ["price", "rent_estimate", "list_price"]

/-- The fallback `price_patterns` loop in `DataTransformer._standardize_prices`
(entered when `_parse_price` returns a falsy value). -/
def price_fallback (field : String) (price_text : String) (v : Val) : Val :=
  let fromGroup : List Char → Option ℚ := fun g =>
    (pyFloatChars (replaceAllChars [','] [] g)).map (fun price =>
      if price < 10000 ∧ field ≠ "rent_estimate" then price * 1000 else price)
  match findPrice1 price_text.data with
  | some g =>
    match fromGroup g with
    | some price => Val.num price
    | Option.none =>
      match findPrice2 price_text.data with
      | some g2 =>
        match fromGroup g2 with
        | some price => Val.num price
        | Option.none => v
      | Option.none => v
  | Option.none =>
    match findPrice2 price_text.data with
    | some g2 =>
      match fromGroup g2 with
      | some price => Val.num price
      | Option.none => v
    | Option.none => v

/-- Body of the loop in `DataTransformer._standardize_prices`. `bool` is an
`int` subtype in Python, so booleans take the `isinstance` branch. -/
def standardize_price_value (field : String) (v : Val) : Val :=
  match v with
  | .num q => if q < 10000 ∧ field ≠ "rent_estimate" then .num (q * 1000) else .num q
  | .bool b =>
    let q : ℚ := if b then 1 else 0
    if q < 10000 ∧ field ≠ "rent_estimate" then .num (q * 1000) else .bool b
  | v =>
    let price_text := pyStrV v
    match parse_price price_text with
    | some p => if p ≠ 0 then .num p else price_fallback field price_text v
    | Option.none => price_fallback field price_text v

/-- `DataTransformer._standardize_prices`. -/
def standardize_prices (r : Record) : Record :=
  price_fields.foldl
    (fun r f =>
      if hasKey r f ∧ getPy r f ≠ Val.none
      then setPy r f (standardize_price_value f (getPy r f)) else r)
    r

def detail_sources : List String := ["description", "title", "features_text"]

/-- The `full_text` assembled in `DataTransformer._extract_property_details`. -/
def full_text (r : Record) : String :=
  String.intercalate " "
    (detail_sources.foldr
      (fun f acc =>
        if hasKey r f ∧ pyTruthy (getPy r f)
        then pyLower (pyStrV (getPy r f)) :: acc else acc)
      [])

/-- `DataTransformer._extract_bedrooms`. (`bed_patterns[1]` `(\d+)br` is
subsumed by `bed_patterns[0]`, and `int()` on a `\d+` group never fails, so
only the first pattern is reachable.) -/
def extract_bedrooms (text : String) : Option ℚ :=
  if pyContains text "studio" then some 0
  else
    match findBed text.data with
    | some g => some (digitsVal g : ℚ)
    | Option.none => Option.none

/-- `DataTransformer._extract_bathrooms`. -/
def extract_bathrooms (text : String) : Option ℚ :=
  let second : Option ℚ :=
    match findBath2 text.data with
    | some g => pyFloatChars g
    | Option.none => Option.none
  match findBath1 text.data with
  | some g =>
    match pyFloatChars g with
    | some q => some q
    | Option.none => second
  | Option.none => second

/-- `DataTransformer._extract_square_feet`. -/
def extract_square_feet (text : String) : Option ℚ :=
  let second : Option ℚ :=
    match findSqft2 text.data with
    | some g => (pyFloatChars (replaceAllChars [','] [] g)).map pyTrunc
    | Option.none => Option.none
  match findSqft1 text.data with
  | some g =>
    match pyFloatChars (replaceAllChars [','] [] g) with
    | some q => some (pyTrunc q)
    | Option.none => second
  | Option.none => second

def feature_keywords : List (String × List String) :=
  [("pool", ["pool", "swimming pool"]),
   ("garage", ["garage", "parking", "car port", "carport"]),
   ("fireplace", ["fireplace", "fire place"]),
   ("basement", ["basement", "cellar"]),
   ("balcony", ["balcony", "deck", "patio"]),
   ("hardwood_floors", ["hardwood", "wood floor", "hardwood floor"]),
   ("stainless_steel", ["stainless steel", "stainless"]),
   ("granite", ["granite", "granite counter"]),
   ("washer_dryer", ["washer", "dryer", "laundry"]),
   ("dishwasher", ["dishwasher"]),
   ("air_conditioning", ["air conditioning", "a/c", "ac", "central air"]),
   ("heating", ["heating", "heat", "furnace"]),
   ("walk_in_closet", ["walk-in closet", "walk in closet"]),
   ("updated_kitchen", ["updated kitchen", "modern kitchen", "new kitchen"]),
   ("pet_friendly", ["pet friendly", "pets allowed", "dog friendly", "cat friendly"]),
   ("furnished", ["furnished", "fully furnished"]),
   ("gym", ["gym", "fitness", "exercise room"]),
   ("elevator", ["elevator", "lift"])]

/-- `DataTransformer._extract_features`: keyword-family scan, in table
order, producing only `True` entries. -/
def extract_features (text : String) : List (String × Val) :=
  feature_keywords.foldl
    (fun acc p =>
      if p.2.any (fun kw => pyContains text kw) then acc ++ [(p.1, Val.bool true)]
      else acc)
    []

/-- CPython `dict.update`: entries of `d2` overwrite entries of `d1`. -/
def dict_update (d1 d2 : List (String × Val)) : List (String × Val) :=
  d2.foldl (fun acc p => setPy acc p.1 p.2) d1

/-- One `if '<k>' not in data or not data['<k>']: ...` fill step of
`_extract_property_details`. -/
def fill_one (r : Record) (k : String) (present : Bool) (ext : Option ℚ) :
    Record :=
  if present = false then
    match ext with
    | some b => setPy r k (.num b)
    | Option.none => r
  else r

/-- The bedrooms/bathrooms/square-feet fill sequence of
`_extract_property_details`. -/
def fill_details (r : Record) (ft : String) : Record :=
  let r1 := fill_one r "bedrooms"
    (hasKey r "bedrooms" && pyTruthy (getPy r "bedrooms")) (extract_bedrooms ft)
  let r2 := fill_one r1 "bathrooms"
    (hasKey r1 "bathrooms" && pyTruthy (getPy r1 "bathrooms")) (extract_bathrooms ft)
  fill_one r2 "square_feet"
    (hasKey r2 "square_feet" && pyTruthy (getPy r2 "square_feet"))
    (extract_square_feet ft)

/-- `DataTransformer._extract_property_details`. Calling `.update` on a
truthy non-dict `features` value raises `AttributeError` (modelled as
`.error`), which propagates to the `except` in `transform_property_data`. -/
def extract_property_details (r : Record) : Except Unit Record :=
  let ft := full_text r
  if ft = "" then .ok r
  else
    let r3 := fill_details r ft
    let feats := extract_features ft
    if feats.isEmpty then .ok r3
    else
      let existing := getPyD r3 "features" (Val.dict [])
      let existing := if pyTruthy existing then existing else Val.dict []
      match existing with
      | .dict d => .ok (setPy r3 "features" (.dict (dict_update d feats)))
      | _ => .error ()

def state_mapping : List (String × String) :=
  [("ALABAMA", "AL"), ("ALASKA", "AK"), ("ARIZONA", "AZ"), ("ARKANSAS", "AR"),
   ("CALIFORNIA", "CA"), ("COLORADO", "CO"), ("CONNECTICUT", "CT"), ("DELAWARE", "DE"),
   ("FLORIDA", "FL"), ("GEORGIA", "GA"), ("HAWAII", "HI"), ("IDAHO", "ID"),
   ("ILLINOIS", "IL"), ("INDIANA", "IN"), ("IOWA", "IA"), ("KANSAS", "KS"),
   ("KENTUCKY", "KY"), ("LOUISIANA", "LA"), ("MAINE", "ME"), ("MARYLAND", "MD"),
   ("MASSACHUSETTS", "MA"), ("MICHIGAN", "MI"), ("MINNESOTA", "MN"), ("MISSISSIPPI", "MS"),
   ("MISSOURI", "MO"), ("MONTANA", "MT"), ("NEBRASKA", "NE"), ("NEVADA", "NV"),
   ("NEW HAMPSHIRE", "NH"), ("NEW JERSEY", "NJ"), ("NEW MEXICO", "NM"), ("NEW YORK", "NY"),
   ("NORTH CAROLINA", "NC"), ("NORTH DAKOTA", "ND"), ("OHIO", "OH"), ("OKLAHOMA", "OK"),
   ("OREGON", "OR"), ("PENNSYLVANIA", "PA"), ("RHODE ISLAND", "RI"), ("SOUTH CAROLINA", "SC"),
   ("SOUTH DAKOTA", "SD"), ("TENNESSEE", "TN"), ("TEXAS", "TX"), ("UTAH", "UT"),
   ("VERMONT", "VT"), ("VIRGINIA", "VA"), ("WASHINGTON", "WA"), ("WEST VIRGINIA", "WV"),
   ("WISCONSIN", "WI"), ("WYOMING", "WY")]

/-- `DataTransformer._standardize_state`. -/
def standardize_state (state : String) : String :=
  let s := pyUpper (pyStrip state)
  (state_mapping.lookup s).getD s

/-- `DataTransformer._clean_zip_code`. -/
def clean_zip_code (zip : String) : String :=
  match find5Digits zip.data with
  | some g => ⟨g⟩
  | Option.none => pyStrip zip

def street_abbreviations : List (String × String) :=
  [("street", "St"), ("avenue", "Ave"), ("boulevard", "Blvd"), ("drive", "Dr"),
   ("road", "Rd"), ("lane", "Ln"), ("circle", "Cir"), ("court", "Ct"),
   ("place", "Pl"), ("terrace", "Ter"), ("parkway", "Pkwy"), ("north", "N"),
   ("south", "S"), ("east", "E"), ("west", "W"), ("northeast", "NE"),
   ("northwest", "NW"), ("southeast", "SE"), ("southwest", "SW")]

/-- `DataTransformer._standardize_street_address`: the abbreviation table
applied in order, word-bounded and case-insensitive, then `strip()`. -/
def standardize_street_address (address : String) : String :=
  ⟨pyStripChars
    (street_abbreviations.foldl
      (fun s p => replaceWordCI p.1.data p.2.data false s) address.data)⟩

/-- `DataTransformer._standardize_address`. -/
def standardize_address (r : Record) : Record :=
  let r1 :=
    if hasKey r "state" ∧ pyTruthy (getPy r "state")
    then setPy r "state" (.str (standardize_state (pyStrV (getPy r "state")))) else r
  let r2 :=
    if hasKey r1 "zip_code" ∧ pyTruthy (getPy r1 "zip_code")
    then setPy r1 "zip_code" (.str (clean_zip_code (pyStrV (getPy r1 "zip_code")))) else r1
  if hasKey r2 "street_address" ∧ pyTruthy (getPy r2 "street_address")
  then setPy r2 "street_address"
        (.str (standardize_street_address (pyStrV (getPy r2 "street_address"))))
  else r2

/-- Python `float()` applied to a value; `None` for the `TypeError` cases the
callers catch. -/
def pyFloatVal : Val → Option ℚ
  | .num q => some q
  | .bool b => some (if b then 1 else 0)
  | .str s => pyFloatStr s
  | _ => Option.none

/-- `DataTransformer._clean_coordinates`. -/
def clean_coordinates (r : Record) : Record :=
  ["latitude", "longitude"].foldl
    (fun r f =>
      if hasKey r f ∧ getPy r f ≠ Val.none then
        match pyFloatVal (getPy r f) with
        | some c =>
          if f = "latitude" ∧ ¬ (-90 ≤ c ∧ c ≤ 90) then setPy r f Val.none
          else if f = "longitude" ∧ ¬ (-180 ≤ c ∧ c ≤ 180) then setPy r f Val.none
          else setPy r f (.num c)
        | Option.none => setPy r f Val.none
      else r)
    r

def boolean_fields : List String :=
  ["pool", "fireplace", "basement", "garage", "pet_friendly"]

def true_strings : List String := ["true", "1", "yes", "on", "y"]

/-- Body of the loop in `DataTransformer._standardize_booleans`. -/
def standardize_boolean_value : Val → Val
  | .bool b => .bool b
  | .str s => .bool (true_strings.contains (pyLower s))
  | v => .bool (pyTruthy v)

/-- `DataTransformer._standardize_booleans`. -/
def standardize_booleans (r : Record) : Record :=
  boolean_fields.foldl
    (fun r f =>
      if hasKey r f ∧ getPy r f ≠ Val.none
      then setPy r f (standardize_boolean_value (getPy r f)) else r)
    r

/-- `DataTransformer._generate_identifiers`. The `md5` digest (truncated to
12 hex characters) is modelled by its preimage string. -/
def generate_identifiers (r : Record) : Record :=
  let comps := ["street_address", "city", "state", "zip_code"].map
    (fun f => pyStrV (getPyD r f (Val.str "")))
  let address_string := pyStrip (pyLower (String.intercalate "|" comps))
  if address_string ≠ "" then setPy r "address_hash" (.str address_string) else r

/-- `item.lower().replace(' ', '_')`. -/
def featureKey (s : String) : String :=
  ⟨(pyLowerChars s.data).map (fun c => if c = ' ' then '_' else c)⟩

/-- `DataTransformer._standardize_features`. -/
def standardize_features (r : Record) : Record :=
  if hasKey r "features" ∧ pyTruthy (getPy r "features") then
    match getPy r "features" with
    | .list items =>
      let d := items.foldl
        (fun acc item =>
          match item with
          | .str s => setPy acc (featureKey s) (.bool true)
          | .dict dd => dict_update acc dd
          | _ => acc)
        []
      setPy r "features" (.dict d)
    | .str s =>
      let d := (s.data.splitOn ',').foldl
        (fun acc itemChars =>
          let item := featureKey ⟨pyStripChars itemChars⟩
          if item ≠ "" then setPy acc item (.bool true) else acc)
        []
      setPy r "features" (.dict d)
    | _ => r
  else r

/-- The stage sequence of `DataTransformer.transform_property_data`
(everything inside its `try`). -/
def transform_chain (r : Record) : Except Unit Record := do
  let r1 := clean_text_fields r
  let r2 := standardize_prices r1
  let r3 ← extract_property_details r2
  let r4 := standardize_address r3
  let r5 := clean_coordinates r4
  let r6 := standardize_booleans r5
  let r7 := generate_identifiers r6
  pure (standardize_features r7)

/-- `DataTransformer.transform_property_data`: on any exception the original
record is returned. -/
def transform_property_data (r : Record) : Record :=
  match transform_chain r with
  | .ok t => t
  | .error _ => r

end DataTransformer

/-! ## `PropertyTransformer` (`src/src/etl/transform.py`) -/

namespace PropertyTransformer

def text_fields : List String := ["description", "address", "city", "state"]

/-- Body of the loop in `PropertyTransformer._clean_text_fields`
(strip, then drop HTML tags, then collapse whitespace). -/
def clean_text_value (v : Val) : Val :=
  let t0 := pyStripChars (pyStrV v).data
  let t1 := removeTagsChars t0
  let t2 := collapseWsChars t1
  Val.str ⟨t2⟩

/-- `PropertyTransformer._clean_text_fields`. -/
def clean_text_fields (r : Record) : Record :=
  text_fields.foldl
    (fun r f =>
      if hasKey r f ∧ pyTruthy (getPy r f)
      then setPy r f (clean_text_value (getPy r f)) else r)
    r

def price_fields : List String := ["price", "rent_estimate"]

/-- The `price_patterns` loop in `PropertyTransformer._transform_prices`
(no parse helper and no thousands heuristic in this transformer). -/
def transform_price_value (v : Val) : Val :=
  match v with
  | .num q => .num q
  | .bool b => .bool b
  | v =>
    let price_text := pyStrV v
    let fromGroup : List Char → Option ℚ := fun g =>
      pyFloatChars (replaceAllChars [','] [] g)
    match findPrice1 price_text.data with
    | some g =>
      match fromGroup g with
      | some price => Val.num price
      | Option.none =>
        match findPrice2 price_text.data with
        | some g2 => match fromGroup g2 with
                     | some price => Val.num price
                     | Option.none => v
        | Option.none => v
    | Option.none =>
      match findPrice2 price_text.data with
      | some g2 => match fromGroup g2 with
                   | some price => Val.num price
                   | Option.none => v
      | Option.none => v

/-- `PropertyTransformer._transform_prices`. -/
def transform_prices (r : Record) : Record :=
  price_fields.foldl
    (fun r f =>
      if hasKey r f ∧ getPy r f ≠ Val.none
      then setPy r f (transform_price_value (getPy r f)) else r)
    r

/-- `PropertyTransformer._transform_measurements`. -/
def transform_measurements (r : Record) : Record :=
  if hasKey r "square_feet" ∧ pyTruthy (getPy r "square_feet") then
    match getPy r "square_feet" with
    | .str s =>
      let second : Option ℚ :=
        match findSqft2 s.data with
        | some g => (pyFloatChars (replaceAllChars [','] [] g)).map pyTrunc
        | Option.none => Option.none
      let sqft : Option ℚ :=
        match findSqft1 s.data with
        | some g =>
          match pyFloatChars (replaceAllChars [','] [] g) with
          | some q => some (pyTrunc q)
          | Option.none => second
        | Option.none => second
      match sqft with
      | some q => setPy r "square_feet" (.num q)
      | Option.none => r
    | _ => r
  else r

/-- The partial state table in `transform.py` (only 15 states are listed
there, unlike the full table in `data_transformer.py`). -/
def state_mapping : List (String × String) :=
  [("ALABAMA", "AL"), ("ALASKA", "AK"), ("ARIZONA", "AZ"), ("ARKANSAS", "AR"),
   ("CALIFORNIA", "CA"), ("COLORADO", "CO"), ("CONNECTICUT", "CT"),
   ("DELAWARE", "DE"), ("FLORIDA", "FL"), ("GEORGIA", "GA"), ("HAWAII", "HI"),
   ("IDAHO", "ID"), ("ILLINOIS", "IL"), ("INDIANA", "IN"), ("IOWA", "IA")]

/-- `PropertyTransformer._standardize_address`. -/
def standardize_address (r : Record) : Record :=
  let r1 :=
    if hasKey r "state" ∧ pyTruthy (getPy r "state") then
      let s := pyUpper (pyStrip (pyStrV (getPy r "state")))
      setPy r "state" (.str ((state_mapping.lookup s).getD s))
    else r
  if hasKey r1 "zip_code" ∧ pyTruthy (getPy r1 "zip_code") then
    match find5Digits (pyStrV (getPy r1 "zip_code")).data with
    | some g => setPy r1 "zip_code" (.str ⟨g⟩)
    | Option.none => r1
  else r1

/-- `PropertyTransformer.transform_property`. The call to
`datetime.utcnow().isoformat()` is the explicit `now` parameter. -/
def transform_property (now : String) (r : Record) : Record :=
  let r1 := clean_text_fields r
  let r2 := transform_prices r1
  let r3 := transform_measurements r2
  let r4 := standardize_address r3
  setPy r4 "processed_at" (.str now)

end PropertyTransformer

/-! ## `difflib.SequenceMatcher` (used by `_string_similarity`)

`ratio()` is `2*M/T` where `M` is the total size of the matching blocks
found by recursively taking the leftmost longest common contiguous block,
and `T` the total length. -/

/-- Length of the common run at the heads of two lists. -/
def commonRunLen : List Char → List Char → ℕ
  | a :: as, b :: bs => if a = b then commonRunLen as bs + 1 else 0
  | _, _ => 0

theorem commonRunLen_le_left : (a b : List Char) → commonRunLen a b ≤ a.length
  | [], _ => by simp [commonRunLen]
  | _ :: _, [] => by simp [commonRunLen]
  | a :: as, b :: bs => by
    by_cases h : a = b
    · simpa [commonRunLen, h] using commonRunLen_le_left as bs
    · simp [commonRunLen, h]

theorem commonRunLen_le_right : (a b : List Char) → commonRunLen a b ≤ b.length
  | [], _ => by simp [commonRunLen]
  | _ :: _, [] => by simp [commonRunLen]
  | a :: as, b :: bs => by
    by_cases h : a = b
    · simpa [commonRunLen, h] using commonRunLen_le_right as bs
    · simp [commonRunLen, h]

/-- `find_longest_match` over the whole ranges: the longest common
contiguous block, preferring the lowest start in `a`, then in `b`. -/
def bestMatch (a b : List Char) : ℕ × ℕ × ℕ :=
  (List.range (a.length + 1)).foldl
    (fun best i =>
      (List.range (b.length + 1)).foldl
        (fun best j =>
          let k := commonRunLen (a.drop i) (b.drop j)
          if best.2.2 < k then (i, j, k) else best)
        best)
    (0, 0, 0)

theorem foldl_induction {α β : Type} {l : List α} {f : β → α → β} {P : β → Prop}
    {init : β} (h0 : P init) (step : ∀ acc, P acc → ∀ x ∈ l, P (f acc x)) :
    P (l.foldl f init) := by
  induction l generalizing init with
  | nil => exact h0
  | cons x xs ih =>
    exact ih (step init h0 x (by simp))
      (fun acc hacc y hy => step acc hacc y (by simp [hy]))

theorem bestMatch_valid (a b : List Char) :
    (bestMatch a b).1 + (bestMatch a b).2.2 ≤ a.length ∧
    (bestMatch a b).2.1 + (bestMatch a b).2.2 ≤ b.length := by
  unfold bestMatch
  apply foldl_induction
    (P := fun t : ℕ × ℕ × ℕ =>
      t.1 + t.2.2 ≤ a.length ∧ t.2.1 + t.2.2 ≤ b.length)
  · exact ⟨by simp, by simp⟩
  · intro acc hacc i hi
    apply foldl_induction
      (P := fun t : ℕ × ℕ × ℕ =>
        t.1 + t.2.2 ≤ a.length ∧ t.2.1 + t.2.2 ≤ b.length)
    · exact hacc
    · intro acc2 hacc2 j hj
      simp only []
      by_cases hk : acc2.2.2 < commonRunLen (a.drop i) (b.drop j)
      · rw [if_pos hk]
        have hia : i ≤ a.length := Nat.lt_succ_iff.mp (List.mem_range.mp hi)
        have hjb : j ≤ b.length := Nat.lt_succ_iff.mp (List.mem_range.mp hj)
        have h1 : commonRunLen (a.drop i) (b.drop j) ≤ (a.drop i).length :=
          commonRunLen_le_left _ _
        have h2 : commonRunLen (a.drop i) (b.drop j) ≤ (b.drop j).length :=
          commonRunLen_le_right _ _
        simp only [List.length_drop] at h1 h2
        exact ⟨by simp; omega, by simp; omega⟩
      · rw [if_neg hk]
        exact hacc2

/-- Total size of the matching blocks (`sum(block.size)` over
`get_matching_blocks()`), fuelled: each recursion step removes at least one
character from each side of the split, so `fuel = a.length + b.length`
always suffices. -/
def matchTotalGo : ℕ → List Char → List Char → ℕ
  | 0, _, _ => 0
  | fuel + 1, a, b =>
    let t := bestMatch a b
    if t.2.2 = 0 then 0
    else
      matchTotalGo fuel (a.take t.1) (b.take t.2.1) + t.2.2 +
        matchTotalGo fuel (a.drop (t.1 + t.2.2)) (b.drop (t.2.1 + t.2.2))

def matchTotal (a b : List Char) : ℕ := matchTotalGo (a.length + b.length) a b

theorem matchTotalGo_le (fuel : ℕ) :
    ∀ (a b : List Char), matchTotalGo fuel a b ≤ a.length ∧
      matchTotalGo fuel a b ≤ b.length := by
  induction fuel with
  | zero => intro a b; simp [matchTotalGo]
  | succ fuel ih =>
    intro a b
    have hv := bestMatch_valid a b
    by_cases hk : (bestMatch a b).2.2 = 0
    · simp [matchTotalGo, hk]
    · simp only [matchTotalGo, hk, if_neg, ite_false]
      have e1 := ih (a.take (bestMatch a b).1) (b.take (bestMatch a b).2.1)
      have e2 := ih (a.drop ((bestMatch a b).1 + (bestMatch a b).2.2))
        (b.drop ((bestMatch a b).2.1 + (bestMatch a b).2.2))
      simp only [List.length_take, List.length_drop] at e1 e2
      have h1 := Nat.min_le_left (bestMatch a b).1 a.length
      have h2 := Nat.min_le_left (bestMatch a b).2.1 b.length
      constructor <;> omega

theorem matchTotal_le (a b : List Char) :
    matchTotal a b ≤ a.length ∧ matchTotal a b ≤ b.length :=
  matchTotalGo_le _ a b

/-- `SequenceMatcher(None, a, b).ratio()`. -/
def smRatio (a b : List Char) : ℚ :=
  if a.length + b.length = 0 then 1
  else 2 * (matchTotal a b : ℚ) / ((a.length : ℚ) + (b.length : ℚ))

theorem smRatio_nonneg (a b : List Char) : 0 ≤ smRatio a b := by
  unfold smRatio
  by_cases h : a.length + b.length = 0
  · simp [h]
  · rw [if_neg h]
    apply div_nonneg
    · positivity
    · push_cast
      positivity

theorem smRatio_le_one (a b : List Char) : smRatio a b ≤ 1 := by
  unfold smRatio
  by_cases h : a.length + b.length = 0
  · simp [h]
  · rw [if_neg h]
    have hpos : (0 : ℚ) < (a.length : ℚ) + (b.length : ℚ) := by
      exact_mod_cast Nat.pos_of_ne_zero h
    rw [div_le_one hpos]
    · have hm := matchTotal_le a b
      have : (matchTotal a b : ℚ) ≤ a.length := by exact_mod_cast hm.1
      have : (matchTotal a b : ℚ) ≤ b.length := by exact_mod_cast hm.2
      push_cast
      linarith

/-! ## `DeduplicationEngine` (`src/src/etl/deduplication.py`)

Database interactions (`PropertyCRUD.get_by_external_id`, `PropertyCRUD.search`)
are inputs of type `Except Unit _`: an `.error` models the call raising. -/

namespace DeduplicationEngine

def similarity_threshold : ℚ := 85 / 100

def field_weights : List (String × ℚ) :=
  [("street_address", 30 / 100), ("city", 15 / 100), ("state", 10 / 100),
   ("zip_code", 15 / 100), ("bedrooms", 10 / 100), ("bathrooms", 10 / 100),
   ("square_feet", 10 / 100)]

/-- `DeduplicationEngine._string_similarity`. -/
def string_similarity (s1 s2 : String) : ℚ :=
  if s1 = "" ∨ s2 = "" then 0
  else
    let t1 := pyStrip (pyLower s1)
    let t2 := pyStrip (pyLower s2)
    if t1 = t2 then 1 else smRatio t1.data t2.data

def tolerance_map : List (String × ℚ) :=
  [("bedrooms", 0), ("bathrooms", 5 / 10), ("square_feet", 1 / 10),
   ("price", 5 / 100)]

/-- `DeduplicationEngine._numeric_similarity` after the `float()`
conversions succeeded. -/
def numeric_similarity_core (n1 n2 : ℚ) (field : String) : ℚ :=
  if n1 = n2 then 1
  else
    let tol := (tolerance_map.lookup field).getD (1 / 10)
    if field = "bedrooms" then (if |n1 - n2| ≤ tol then 1 else 0)
    else if n1 = 0 ∧ n2 = 0 then 1
    else
      let mv := max |n1| |n2|
      if mv = 0 then 1
      else
        let dr := |n1 - n2| / mv
        if dr ≤ tol then 1 else max 0 (1 - (dr - tol) / (1 - tol))

/-- `DeduplicationEngine._numeric_similarity`: a failing `float()`
conversion yields `0.0`. -/
def numeric_similarity (v1 v2 : Val) (field : String) : ℚ :=
  match DataTransformer.pyFloatVal v1, DataTransformer.pyFloatVal v2 with
  | some a, some b => numeric_similarity_core a b field
  | _, _ => 0

def string_sim_fields : List String := ["street_address", "city", "state", "zip_code"]

def numeric_sim_fields : List String := ["bedrooms", "bathrooms", "square_feet", "price"]

/-- `DeduplicationEngine._calculate_field_similarity`. -/
def calculate_field_similarity (v1 v2 : Val) (field : String) : Option ℚ :=
  if v1 = Val.none ∨ v2 = Val.none then Option.none
  else if string_sim_fields.contains field then
    some (string_similarity (pyStrV v1) (pyStrV v2))
  else if numeric_sim_fields.contains field then
    some (numeric_similarity v1 v2 field)
  else some (if v1 = v2 then 1 else 0)

/-- The `(total_score, total_weight)` accumulation loop of
`DeduplicationEngine._calculate_similarity`. -/
def similarity_fold (p1 p2 : Record) : ℚ × ℚ :=
  field_weights.foldl
    (fun acc p =>
      match calculate_field_similarity (getPy p1 p.1) (getPy p2 p.1) p.1 with
      | some s => (acc.1 + s * p.2, acc.2 + p.2)
      | Option.none => acc)
    ((0 : ℚ), (0 : ℚ))

/-- `DeduplicationEngine._calculate_similarity`. -/
def calculate_similarity (p1 p2 : Record) : ℚ :=
  if 0 < (similarity_fold p1 p2).2
  then (similarity_fold p1 p2).1 / (similarity_fold p1 p2).2 else 0

/-- `DeduplicationEngine._is_exact_duplicate`; `dbExact` is the outcome of
the `PropertyCRUD.get_by_external_id` lookup (`is not None`). -/
def is_exact_duplicate (dbExact : Except Unit Bool) (r : Record) : Except Unit Bool :=
  if ¬ (pyTruthy (getPy r "external_id") ∧ pyTruthy (getPy r "data_source"))
  then .ok false
  else dbExact

/-- `DeduplicationEngine._find_similar_properties`; `dbCands` is the outcome
of the `PropertyCRUD.search` call. The function has its own `try/except`
that returns the (empty) list built so far on error. -/
def find_similar_properties (dbCands : Except Unit (List Record)) (r : Record) :
    List Record :=
  if ¬ (pyTruthy (getPy r "city") ∧ pyTruthy (getPy r "state")) then []
  else
    match dbCands with
    | .ok l => l
    | .error _ => []

/-- The body of the `try` in `DeduplicationEngine.is_duplicate`. -/
def is_duplicate_chain (dbExact : Except Unit Bool)
    (dbCands : Except Unit (List Record)) (r : Record) : Except Unit Bool := do
  let ex ← is_exact_duplicate dbExact r
  if ex then pure true
  else
    let sims := find_similar_properties dbCands r
    pure (sims.any (fun s => similarity_threshold ≤ calculate_similarity r s))

/-- `DeduplicationEngine.is_duplicate`: any exception is caught and the
record is reported as not a duplicate. -/
def is_duplicate (dbExact : Except Unit Bool) (dbCands : Except Unit (List Record))
    (r : Record) : Bool :=
  match is_duplicate_chain dbExact dbCands r with
  | .ok b => b
  | .error _ => false

def hash_replacements : List (String × String) :=
  [("street", "st"), ("avenue", "ave"), ("boulevard", "blvd"),
   ("drive", "dr"), ("road", "rd")]

/-- `DeduplicationEngine.create_address_hash`: the `md5` digest is modelled
by its preimage, the normalized address string. -/
def create_address_hash (r : Record) : String :=
  let comps := [pyStrip (pyLower (pyStrV (getPyD r "street_address" (Val.str "")))),
                pyStrip (pyLower (pyStrV (getPyD r "city" (Val.str "")))),
                pyStrip (pyLower (pyStrV (getPyD r "state" (Val.str "")))),
                pyStrip (pyStrV (getPyD r "zip_code" (Val.str "")))]
  let na := String.intercalate " " comps
  ⟨hash_replacements.foldl
    (fun s p => replaceAllChars p.1.data p.2.data s) na.data⟩

end DeduplicationEngine

/-! ## `DataValidator` (`src/src/etl/data_validator.py`)

Diagnostics are modelled structurally (one constructor per `errors.append`
site); only their presence and multiplicity matter to the claims.
`datetime.now().year` is the explicit `year` parameter. -/

inductive Diag where
  | requiredMissing (field : String)
  | notString (field : String)
  | notNumeric (field : String)
  | belowMin (field : String)
  | aboveMax (field : String)
  | badDataSource
  | badPropertyType
  | badState
  | badZip
  | badLat
  | badLng
  | ppsqftInconsistent
  | bathBedRatio
  | sqftPerBedSmall
  | sqftPerBedLarge
  | futureYear
  | exception
deriving DecidableEq

namespace DataValidator

def required_fields : List String := ["data_source", "external_id"]

/-- `DataValidator._validate_required_fields`. -/
def validate_required_fields (r : Record) : List Diag :=
  required_fields.foldl
    (fun errs f =>
      if ¬ hasKey r f ∨ getPy r f = Val.none ∨ getPy r f = Val.str ""
      then errs ++ [Diag.requiredMissing f] else errs)
    []

def string_fields : List String :=
  ["external_id", "data_source", "property_type", "description",
   "street_address", "city", "state", "zip_code", "neighborhood"]

def numeric_fields : List String :=
  ["price", "rent_estimate", "bedrooms", "bathrooms", "square_feet",
   "lot_size", "year_built", "garage_spaces", "stories", "latitude", "longitude"]

def coerce_boolean_fields : List String := ["pool", "fireplace", "basement"]

def coerce_true_strings : List String := ["true", "1", "yes", "on"]

/-- `DataValidator._validate_data_types`: type coercion performed in place on
the record (`str()` never fails, so the string branch produces no
diagnostics; Python `bool` passes the numeric `isinstance` check). -/
def validate_data_types (r : Record) : Record × List Diag :=
  let step1 := string_fields.foldl
    (fun acc f =>
      if hasKey acc f ∧ getPy acc f ≠ Val.none then
        match getPy acc f with
        | .str _ => acc
        | v => setPy acc f (.str (pyStrV v))
      else acc)
    r
  let step2 := numeric_fields.foldl
    (fun acc f =>
      if hasKey acc.1 f ∧ getPy acc.1 f ≠ Val.none then
        match getPy acc.1 f with
        | .num _ => acc
        | .bool _ => acc
        | .str s =>
          let cleaned := pyStrip ⟨replaceAllChars ['$'] []
                          (replaceAllChars [','] [] s.data)⟩
          match pyFloatStr cleaned with
          | some q => (setPy acc.1 f (.num q), acc.2)
          | Option.none => (acc.1, acc.2 ++ [Diag.notNumeric f])
        | _ => (acc.1, acc.2 ++ [Diag.notNumeric f])
      else acc)
    (step1, ([] : List Diag))
  let step3 := coerce_boolean_fields.foldl
    (fun acc f =>
      if hasKey acc f ∧ getPy acc f ≠ Val.none then
        match getPy acc f with
        | .bool _ => acc
        | .str s => setPy acc f (.bool (coerce_true_strings.contains (pyLower s)))
        | v => setPy acc f (.bool (pyTruthy v))
      else acc)
    step2.1
  (step3, step2.2)

/-- A value in numeric position: Python raises `TypeError` when comparing a
non-number (post-coercion string, list, dict or `None`) with a number. -/
def valAsNum : Val → Except Unit ℚ
  | .num q => .ok q
  | .bool b => .ok (if b then 1 else 0)
  | _ => .error ()

/-- `(min, max)` rules for `validation_rules`, with
`year_built` capped at `year + 5`. -/
def validation_rules (year : ℤ) : List (String × ℚ × ℚ) :=
  [("price", 1000, 100000000), ("rent_estimate", 100, 50000),
   ("bedrooms", 0, 20), ("bathrooms", 0, 20),
   ("square_feet", 100, 100000), ("lot_size", 1 / 100, 1000),
   ("year_built", 1800, (year : ℚ) + 5)]

def data_source_values : List String := ["redfin", "zillow", "apartments_com"]

/-- `DataSource(value)` succeeds. -/
def dataSourceOk : Val → Bool
  | .str s => data_source_values.contains s
  | _ => false

/-- `PropertyType(value)` succeeds (an `int` enum with values 1–8; Python
`True == 1`). -/
def propertyTypeOk : Val → Bool
  | .num q => [(1 : ℚ), 2, 3, 4, 5, 6, 7, 8].contains q
  | .bool b => b
  | _ => false

/-- `DataValidator._validate_field_values`. -/
def validate_field_values (year : ℤ) (r : Record) : Except Unit (List Diag) := do
  let range_errs ← (validation_rules year).foldlM
    (fun (errs : List Diag) rule =>
      if hasKey r rule.1 ∧ getPy r rule.1 ≠ Val.none then do
        let v ← valAsNum (getPy r rule.1)
        let errs := if v < rule.2.1 then errs ++ [Diag.belowMin rule.1] else errs
        pure (if rule.2.2 < v then errs ++ [Diag.aboveMax rule.1] else errs)
      else pure errs)
    []
  let errs2 := if hasKey r "data_source" ∧ ¬ dataSourceOk (getPy r "data_source")
               then range_errs ++ [Diag.badDataSource] else range_errs
  let errs3 := if hasKey r "property_type" ∧ pyTruthy (getPy r "property_type") ∧
                  ¬ propertyTypeOk (getPy r "property_type")
               then errs2 ++ [Diag.badPropertyType] else errs2
  pure errs3

def valid_state_names : List String :=
  ["AL", "ALABAMA", "AK", "ALASKA", "AZ", "ARIZONA", "AR", "ARKANSAS",
   "CA", "CALIFORNIA", "CO", "COLORADO", "CT", "CONNECTICUT", "DE", "DELAWARE",
   "FL", "FLORIDA", "GA", "GEORGIA", "HI", "HAWAII", "ID", "IDAHO",
   "IL", "ILLINOIS", "IN", "INDIANA", "IA", "IOWA", "KS", "KANSAS",
   "KY", "KENTUCKY", "LA", "LOUISIANA", "ME", "MAINE", "MD", "MARYLAND",
   "MA", "MASSACHUSETTS", "MI", "MICHIGAN", "MN", "MINNESOTA", "MS", "MISSISSIPPI",
   "MO", "MISSOURI", "MT", "MONTANA", "NE", "NEBRASKA", "NV", "NEVADA",
   "NH", "NEW HAMPSHIRE", "NJ", "NEW JERSEY", "NM", "NEW MEXICO", "NY", "NEW YORK",
   "NC", "NORTH CAROLINA", "ND", "NORTH DAKOTA", "OH", "OHIO", "OK", "OKLAHOMA",
   "OR", "OREGON", "PA", "PENNSYLVANIA", "RI", "RHODE ISLAND", "SC", "SOUTH CAROLINA",
   "SD", "SOUTH DAKOTA", "TN", "TENNESSEE", "TX", "TEXAS", "UT", "UTAH",
   "VT", "VERMONT", "VA", "VIRGINIA", "WA", "WASHINGTON", "WV", "WEST VIRGINIA",
   "WI", "WISCONSIN", "WY", "WYOMING"]

/-- `DataValidator._is_valid_state_name` (argument already upper-cased by the
caller; `.upper()` is applied again in the source). -/
def is_valid_state_name (state : String) : Bool :=
  valid_state_names.contains (pyUpper state)

/-- `DataValidator._validate_address`. -/
def validate_address (r : Record) : Except Unit (List Diag) := do
  let e1 : List Diag :=
    if hasKey r "state" ∧ pyTruthy (getPy r "state") then
      let s := pyUpper (pyStrip (pyStrV (getPy r "state")))
      if ¬ (s.length = 2 ∧ s.data ≠ [] ∧ s.data.all Char.isAlpha) ∧
         ¬ is_valid_state_name s
      then [Diag.badState] else []
    else []
  let e2 : List Diag :=
    if hasKey r "zip_code" ∧ pyTruthy (getPy r "zip_code") then
      let z := pyStrip (pyStrV (getPy r "zip_code"))
      if ¬ matchZipShape z.data ∧ find5Digits z.data = Option.none
      then [Diag.badZip] else []
    else []
  let e3 : List Diag ←
    if hasKey r "latitude" ∧ getPy r "latitude" ≠ Val.none then do
      let lat ← valAsNum (getPy r "latitude")
      pure (if ¬ (-90 ≤ lat ∧ lat ≤ 90) then [Diag.badLat] else [])
    else pure []
  let e4 : List Diag ←
    if hasKey r "longitude" ∧ getPy r "longitude" ≠ Val.none then do
      let lng ← valAsNum (getPy r "longitude")
      pure (if ¬ (-180 ≤ lng ∧ lng ≤ 180) then [Diag.badLng] else [])
    else pure []
  pure (e1 ++ e2 ++ e3 ++ e4)

/-- Python `a * 2` for the bath/bed rule (string values repeat). -/
def valTimesTwo : Val → Except Unit Val
  | .num q => .ok (.num (q * 2))
  | .bool b => .ok (.num ((if b then (1 : ℚ) else 0) * 2))
  | .str s => .ok (.str (s ++ s))
  | _ => .error ()

/-- Python `a > b` (numbers compare numerically, strings lexicographically,
mixtures raise `TypeError`). -/
def pyGt : Val → Val → Except Unit Bool
  | .num a, .num b => .ok (b < a)
  | .num a, .bool b => .ok ((if b then (1 : ℚ) else 0) < a)
  | .bool a, .num b => .ok (b < if a then 1 else 0)
  | .bool a, .bool b => .ok ((if b then (1 : ℚ) else 0) < if a then 1 else 0)
  | .str a, .str b => .ok (decide (b < a))
  | _, _ => .error ()

/-- `DataValidator._validate_business_rules`. -/
def validate_business_rules (year : ℤ) (r : Record) : Except Unit (List Diag) := do
  let e1 : List Diag ←
    if ["price", "square_feet", "price_per_sqft"].all
        (fun f => hasKey r f ∧ pyTruthy (getPy r f)) then do
      let price ← valAsNum (getPy r "price")
      let sqft ← valAsNum (getPy r "square_feet")
      let reported ← valAsNum (getPy r "price_per_sqft")
      let calculated := price / sqft
      pure (if 1 / 10 < |calculated - reported| / reported
            then [Diag.ppsqftInconsistent] else [])
    else pure []
  let e2 : List Diag ←
    if hasKey r "bedrooms" ∧ hasKey r "bathrooms" ∧
       pyTruthy (getPy r "bedrooms") ∧ pyTruthy (getPy r "bathrooms") then do
      let doubled ← valTimesTwo (getPy r "bedrooms")
      let gt ← pyGt (getPy r "bathrooms") doubled
      pure (if gt then [Diag.bathBedRatio] else [])
    else pure []
  let e3 : List Diag ←
    if hasKey r "bedrooms" ∧ hasKey r "square_feet" ∧
       pyTruthy (getPy r "bedrooms") ∧ pyTruthy (getPy r "square_feet") then do
      let bedrooms ← valAsNum (getPy r "bedrooms")
      let sqft ← valAsNum (getPy r "square_feet")
      let spb := sqft / max bedrooms 1
      let errs := if spb < 70 then [Diag.sqftPerBedSmall] else []
      pure (if 2000 < spb then errs ++ [Diag.sqftPerBedLarge] else errs)
    else pure []
  let e4 : List Diag ←
    if hasKey r "year_built" ∧ pyTruthy (getPy r "year_built") then do
      let y ← valAsNum (getPy r "year_built")
      pure (if (year : ℚ) < y then [Diag.futureYear] else [])
    else pure []
  pure (e1 ++ e2 ++ e3 ++ e4)

/-- `DataValidator.validate_property_data`: all stages accumulate; the
outer `except` converts any raise into a single invalid outcome. -/
def validate_property_data (year : ℤ) (r : Record) : Bool × List Diag :=
  match (do
    let e1 := validate_required_fields r
    let coerced := validate_data_types r
    let e3 ← validate_field_values year coerced.1
    let e4 ← validate_address coerced.1
    let e5 ← validate_business_rules year coerced.1
    pure (e1 ++ coerced.2 ++ e3 ++ e4 ++ e5) : Except Unit (List Diag)) with
  | .ok errs => (errs.isEmpty, errs)
  | .error _ => (false, [Diag.exception])

/-- `DataValidator.validate_batch` result. -/
structure BatchSummary where
  total_properties : ℕ
  valid_properties : ℕ
  invalid_properties : ℕ
  validation_rate : ℚ
  errors : List (ℕ × Diag)

/-- `DataValidator.validate_batch`. -/
def validate_batch (year : ℤ) (props : List Record) : BatchSummary :=
  let valid :=
    (props.filter (fun p => (validate_property_data year p).1)).length
  { total_properties := props.length
    valid_properties := valid
    invalid_properties := props.length - valid
    validation_rate :=
      if 0 < props.length then (valid : ℚ) / props.length else 0
    errors :=
      (props.enum.map (fun p =>
        if (validate_property_data year p.2).1 then []
        else (validate_property_data year p.2).2.map (fun d => (p.1, d)))).flatten }

end DataValidator

/-! ## `BaseScraper._apply_rate_limiting` (`src/src/scrapers/base_scraper.py`)

`time.time()` is the explicit call time `t`; sleeping advances the clock by
the sleep amount; the random jitter sleep is an explicit input. One request
is issued immediately after each `_apply_rate_limiting` call returns. -/

structure RLConfig where
  requests_per_minute : ℕ
  delay_between_requests : ℚ

structure RLState where
  start_time : ℚ
  last_request_time : ℚ
  request_count : ℕ

/-- One issued request: its wall-clock time, the value of `start_time`
(the counter window it was counted in), and the pre-increment counter. -/
structure RLEntry where
  reqTime : ℚ
  winStart : ℚ
  posInWindow : ℕ
deriving DecidableEq

/-- One call of `_apply_rate_limiting` at wall-clock time `t` with random
delay `jitter`, followed by the request. Note that the inter-request delay
is computed from the *stale* `current_time` read at entry, as in the source. -/
def rl_step (cfg : RLConfig) (s : RLState) (t jitter : ℚ) : RLState × RLEntry :=
  let p0 : ℕ × ℚ :=
    if 60 ≤ t - s.start_time then (0, t) else (s.request_count, s.start_time)
  let p1 : ℕ × ℚ × ℚ :=
    if cfg.requests_per_minute ≤ p0.1 then
      let sl := 60 - (t - p0.2)
      if 0 < sl then (0, t + sl, t + sl) else (p0.1, p0.2, t)
    else (p0.1, p0.2, t)
  let since := t - s.last_request_time
  let t2 := if since < cfg.delay_between_requests
            then p1.2.2 + (cfg.delay_between_requests - since) else p1.2.2
  let t3 := t2 + jitter
  (⟨p1.2.1, t3, p1.1 + 1⟩, ⟨t3, p1.2.1, p1.1⟩)

/-- A whole crawl: the list of `(call time, jitter)` pairs in order. -/
def rl_run (cfg : RLConfig) (s : RLState) : List (ℚ × ℚ) → List RLEntry
  | [] => []
  | (t, j) :: rest =>
    let step := rl_step cfg s t j
    step.2 :: rl_run cfg step.1 rest

/-- Number of requests issued in the trailing window `(a, a + 60]`. -/
def trailingWindowCount (entries : List RLEntry) (a : ℚ) : ℕ :=
  (entries.filter (fun e => a < e.reqTime ∧ e.reqTime ≤ a + 60)).length

/-- Number of requests counted against the counter window starting at `σ`. -/
def counterWindowCount (entries : List RLEntry) (σ : ℚ) : ℕ :=
  (entries.filter (fun e => e.winStart = σ)).length

/-! ## `DataProcessor` (`src/src/etl/data_processor.py`) -/

namespace DataProcessor

/-- The write-back loop of `DataProcessor._transform_data`: only keys that
are already DataFrame columns are written back into the row. -/
def apply_transformed (cols : List String) (orig transformed : Record) : Record :=
  transformed.foldl
    (fun acc p => if cols.contains p.1 then setPy acc p.1 p.2 else acc) orig

/-- `DataProcessor._transform_data` over a batch. (The per-row
`try/except` in the source is unreachable: `transform_property_data`
already catches every exception itself.) -/
def transform_data (cols : List String) (rows : List Record) : List Record :=
  rows.map
    (fun r => apply_transformed cols r (DataTransformer.transform_property_data r))

end DataProcessor

/-! ## Record-operation lemmas -/

theorem lookup_cons_eq (p : String × Val) (rest : List (String × Val))
    (k : String) (h : k = p.1) : (p :: rest).lookup k = some p.2 := by
  have hb : (k == p.1) = true := by simp [h]
  simp [List.lookup, hb]

theorem lookup_cons_ne (p : String × Val) (rest : List (String × Val))
    (k : String) (h : ¬ k = p.1) : (p :: rest).lookup k = rest.lookup k := by
  have hb : (k == p.1) = false := by simp [h]
  simp [List.lookup, hb]

theorem lookup_map_replace (rest : List (String × Val)) (k k' : String) (v : Val)
    (h : k' ≠ k) :
    (rest.map (fun p => if p.1 = k then (k, v) else p)).lookup k' = rest.lookup k' := by
  induction rest with
  | nil => simp
  | cons p t ih =>
    by_cases hp : p.1 = k
    · simp only [List.map_cons, if_pos hp]
      rw [lookup_cons_ne (k, v) _ k' h, lookup_cons_ne p _ k' (hp ▸ h), ih]
    · simp only [List.map_cons, if_neg hp]
      by_cases hk' : k' = p.1
      · rw [lookup_cons_eq p _ k' hk', lookup_cons_eq p _ k' hk']
      · rw [lookup_cons_ne p _ k' hk', lookup_cons_ne p _ k' hk', ih]

theorem lookup_append_single_ne (rest : List (String × Val)) (k k' : String)
    (v : Val) (h : k' ≠ k) :
    (rest ++ [(k, v)]).lookup k' = rest.lookup k' := by
  induction rest with
  | nil => simp [lookup_cons_ne (k, v) [] k' h]
  | cons p t ih =>
    by_cases hk' : k' = p.1
    · rw [List.cons_append, lookup_cons_eq p _ k' hk', lookup_cons_eq p _ k' hk']
    · rw [List.cons_append, lookup_cons_ne p _ k' hk', lookup_cons_ne p _ k' hk', ih]

theorem lookup_setPy_ne (r : Record) (k : String) (v : Val) (k' : String)
    (h : k' ≠ k) : (setPy r k v).lookup k' = r.lookup k' := by
  unfold setPy
  by_cases hc : hasKey r k
  · rw [if_pos hc]; exact lookup_map_replace r k k' v h
  · rw [if_neg hc]; exact lookup_append_single_ne r k k' v h

theorem lookup_map_replace_self (rest : List (String × Val)) (k : String) (v : Val)
    (h : (rest.map Prod.fst).contains k = true) :
    (rest.map (fun p => if p.1 = k then (k, v) else p)).lookup k = some v := by
  induction rest with
  | nil => simp at h
  | cons p t ih =>
    by_cases hp : p.1 = k
    · simp only [List.map_cons, if_pos hp]
      exact lookup_cons_eq (k, v) _ k rfl
    · simp only [List.map_cons, if_neg hp]
      rw [lookup_cons_ne p _ k (fun hh => hp hh.symm)]
      apply ih
      simp only [List.map_cons, List.contains_cons, Bool.or_eq_true_iff] at h
      rcases h with h1 | h1
      · exact absurd (beq_iff_eq.mp h1).symm hp
      · exact h1

theorem lookup_setPy_self (r : Record) (k : String) (v : Val) :
    (setPy r k v).lookup k = some v := by
  unfold setPy
  by_cases hc : hasKey r k
  · rw [if_pos hc]
    exact lookup_map_replace_self r k v hc
  · rw [if_neg hc]
    unfold hasKey at hc
    induction r with
    | nil => exact lookup_cons_eq (k, v) [] k rfl
    | cons p t ih =>
      simp only [List.map_cons, List.contains_cons, Bool.or_eq_true_iff,
        not_or] at hc
      have hp : ¬ k = p.1 := fun hh => hc.1 (by simp [hh])
      rw [List.cons_append, lookup_cons_ne p _ k hp]
      exact ih hc.2

theorem getPy_setPy_ne (r : Record) (k : String) (v : Val) (k' : String)
    (h : k' ≠ k) : getPy (setPy r k v) k' = getPy r k' := by
  unfold getPy
  rw [lookup_setPy_ne r k v k' h]

theorem getPy_setPy_self (r : Record) (k : String) (v : Val) :
    getPy (setPy r k v) k = v := by
  unfold getPy
  rw [lookup_setPy_self r k v]
  rfl

theorem erase_filter_map_replace (rest : List (String × Val)) (k : String) (v : Val) :
    (rest.map (fun p => if p.1 = k then (k, v) else p)).filter (fun p => p.1 ≠ k) =
      rest.filter (fun p => p.1 ≠ k) := by
  induction rest with
  | nil => simp
  | cons p t ih =>
    by_cases hp : p.1 = k
    · simpa [List.filter, hp] using ih
    · simpa [List.filter, hp] using ih

theorem erasePy_setPy (r : Record) (k : String) (v : Val) :
    erasePy (setPy r k v) k = erasePy r k := by
  unfold setPy erasePy
  by_cases hc : hasKey r k
  · rw [if_pos hc]
    exact erase_filter_map_replace r k v
  · rw [if_neg hc]
    simp [List.filter_append, List.filter]

/-! ## Claim theorems -/

/-- C1 (counterexample): the record transformation is *not* invariant under
the invocation time: `PropertyTransformer.transform_property` stamps
`processed_at = datetime.utcnow().isoformat()`, so two invocations of the
transformation on the identical (empty) input record, made at two different
times, yield different outputs. -/
theorem transform_property_time_dependent :
    PropertyTransformer.transform_property "2024-01-01T00:00:00" [] ≠
      PropertyTransformer.transform_property "2024-01-02T00:00:00" [] :=
  of_decide_eq_true (by with_unfolding_all rfl)

/-- C1 (amended): the transformation is deterministic in the input record
except for the `processed_at` metadata field, which records the invocation
time: for every record, the outputs of two invocations at different times
agree after projecting away `processed_at`. (`DataTransformer.
transform_property_data`, the other cited transformer, reads no clock at
all in its model.) -/
theorem transform_property_deterministic_up_to_timestamp
    (now1 now2 : String) (r : Record) :
    erasePy (PropertyTransformer.transform_property now1 r) "processed_at" =
      erasePy (PropertyTransformer.transform_property now2 r) "processed_at" := by
  simp only [PropertyTransformer.transform_property]
  rw [erasePy_setPy, erasePy_setPy]

/-- C3 (evaluation at the failing input): `_numeric_similarity` applies the
`0.5` bathroom tolerance to the *proportional* difference `|a−b|/max(|a|,|b|)`,
although the code's own comment reads "0.5 bathroom difference allowed":
bathroom counts 1.0 and 2.0 differ by 1.0 > 0.5 yet score 1.0, while counts
0.25 and 0.75 differ by exactly 0.5 yet score only 2/3. -/
theorem numeric_similarity_bathroom_divergence :
    DeduplicationEngine.numeric_similarity (Val.num 1) (Val.num 2) "bathrooms" = 1 ∧
    ¬ (|(1 : ℚ) - 2| ≤ 5 / 10) ∧
    DeduplicationEngine.numeric_similarity
      (Val.num (1 / 4)) (Val.num (3 / 4)) "bathrooms" = 2 / 3 ∧
    |(1 / 4 : ℚ) - 3 / 4| ≤ 5 / 10 :=
  ⟨of_decide_eq_true (by with_unfolding_all rfl), by norm_num,
   of_decide_eq_true (by with_unfolding_all rfl), by rw [abs_le]; norm_num⟩

/-- C4: for every batch submitted to `DataValidator.validate_batch`, the
reported counts satisfy `valid + invalid = input`: each record is counted
exactly once, either as valid or as invalid. -/
theorem validate_batch_counts (year : ℤ) (props : List Record) :
    (DataValidator.validate_batch year props).valid_properties +
      (DataValidator.validate_batch year props).invalid_properties =
      props.length := by
  have h : (props.filter
      (fun p => (DataValidator.validate_property_data year p).1)).length ≤
      props.length := List.length_filter_le _ _
  simp only [DataValidator.validate_batch]
  omega

set_option maxRecDepth 100000 in
/-- C6: transforming a record whose `price` field holds the text
`"1200-1800 per month"` yields the numeric price 1200: `_parse_price` takes
the first value of the range and strips the `per`-period suffix (and the
under-10000 thousands heuristic does not apply on this parse path). -/
theorem transform_price_range_first_value :
    getPy (DataTransformer.transform_property_data
      [("price", Val.str "1200-1800 per month")]) "price" = Val.num 1200 :=
  of_decide_eq_true (by with_unfolding_all rfl)

namespace DeduplicationEngine

theorem string_similarity_mem (s1 s2 : String) :
    0 ≤ string_similarity s1 s2 ∧ string_similarity s1 s2 ≤ 1 := by
  unfold string_similarity
  by_cases h : s1 = "" ∨ s2 = ""
  · rw [if_pos h]; norm_num
  · rw [if_neg h]
    by_cases h2 : pyStrip (pyLower s1) = pyStrip (pyLower s2)
    · rw [if_pos h2]; norm_num
    · rw [if_neg h2]; exact ⟨smRatio_nonneg _ _, smRatio_le_one _ _⟩

theorem tolerance_bounds (f : String) :
    0 ≤ (tolerance_map.lookup f).getD (1 / 10) ∧
      (tolerance_map.lookup f).getD (1 / 10) ≤ 1 / 2 := by
  unfold tolerance_map
  simp only [List.lookup]
  cases h1 : (f == "bedrooms") <;> cases h2 : (f == "bathrooms") <;>
    cases h3 : (f == "square_feet") <;> cases h4 : (f == "price") <;>
    simp [h1, h2, h3, h4] <;> norm_num

theorem numeric_similarity_core_mem (n1 n2 : ℚ) (f : String) :
    0 ≤ numeric_similarity_core n1 n2 f ∧ numeric_similarity_core n1 n2 f ≤ 1 := by
  have htol := tolerance_bounds f
  unfold numeric_similarity_core
  by_cases h1 : n1 = n2
  · rw [if_pos h1]; norm_num
  rw [if_neg h1]
  by_cases h2 : f = "bedrooms"
  · rw [if_pos h2]
    split_ifs <;> norm_num
  rw [if_neg h2]
  by_cases h3 : n1 = 0 ∧ n2 = 0
  · rw [if_pos h3]; norm_num
  rw [if_neg h3]
  by_cases h4 : max |n1| |n2| = 0
  · rw [if_pos h4]; norm_num
  rw [if_neg h4]
  by_cases h5 : |n1 - n2| / max |n1| |n2| ≤ (tolerance_map.lookup f).getD (1 / 10)
  · rw [if_pos h5]; norm_num
  rw [if_neg h5]
  constructor
  · exact le_max_left 0 _
  · apply max_le (by norm_num)
    have hd : 0 ≤ (|n1 - n2| / max |n1| |n2| -
        (tolerance_map.lookup f).getD (1 / 10)) /
        (1 - (tolerance_map.lookup f).getD (1 / 10)) := by
      apply div_nonneg
      · linarith [not_le.mp h5]
      · linarith [htol.2]
    linarith

theorem numeric_similarity_mem (v1 v2 : Val) (f : String) :
    0 ≤ numeric_similarity v1 v2 f ∧ numeric_similarity v1 v2 f ≤ 1 := by
  unfold numeric_similarity
  cases DataTransformer.pyFloatVal v1 with
  | none => simp
  | some a =>
    cases DataTransformer.pyFloatVal v2 with
    | none => simp
    | some b => exact numeric_similarity_core_mem a b f

theorem calculate_field_similarity_mem (v1 v2 : Val) (f : String) (s : ℚ)
    (h : calculate_field_similarity v1 v2 f = some s) : 0 ≤ s ∧ s ≤ 1 := by
  unfold calculate_field_similarity at h
  split_ifs at h with h1 h2 h3 h4
  · obtain rfl : string_similarity (pyStrV v1) (pyStrV v2) = s := by
      simpa using h
    exact string_similarity_mem _ _
  · obtain rfl : numeric_similarity v1 v2 f = s := by simpa using h
    exact numeric_similarity_mem _ _ _
  · obtain rfl : (1 : ℚ) = s := by simpa using h
    norm_num
  · obtain rfl : (0 : ℚ) = s := by simpa using h
    norm_num

theorem field_weights_nonneg : ∀ p ∈ field_weights, 0 ≤ p.2 := by
  intro p hp
  unfold field_weights at hp
  fin_cases hp <;> norm_num

theorem similarity_fold_mem (p1 p2 : Record) :
    0 ≤ (similarity_fold p1 p2).1 ∧
    (similarity_fold p1 p2).1 ≤ (similarity_fold p1 p2).2 ∧
    0 ≤ (similarity_fold p1 p2).2 := by
  unfold similarity_fold
  apply foldl_induction
    (P := fun acc : ℚ × ℚ => 0 ≤ acc.1 ∧ acc.1 ≤ acc.2 ∧ 0 ≤ acc.2)
  · exact ⟨le_refl 0, le_refl 0, le_refl 0⟩
  · intro acc hacc p hp
    cases hcfs : calculate_field_similarity (getPy p1 p.1) (getPy p2 p.1) p.1 with
    | none => exact hacc
    | some s =>
      have hs := calculate_field_similarity_mem _ _ _ _ hcfs
      have hw := field_weights_nonneg p hp
      refine ⟨add_nonneg hacc.1 (mul_nonneg hs.1 hw), ?_, add_nonneg hacc.2.2 hw⟩
      have hsw : s * p.2 ≤ p.2 := by nlinarith [hs.2, hw]
      exact add_le_add hacc.2.1 hsw

theorem calculate_similarity_mem (p1 p2 : Record) :
    0 ≤ calculate_similarity p1 p2 ∧ calculate_similarity p1 p2 ≤ 1 := by
  have key := similarity_fold_mem p1 p2
  unfold calculate_similarity
  split_ifs with hpos
  · exact ⟨div_nonneg key.1 (le_of_lt hpos), (div_le_one hpos).mpr key.2.1⟩
  · norm_num

end DeduplicationEngine

namespace DeduplicationEngine

theorem string_similarity_self (s : String) (h : s ≠ "") :
    string_similarity s s = 1 := by
  unfold string_similarity
  rw [if_neg (by simp [h]), if_pos rfl]

theorem numeric_similarity_num_self (q : ℚ) (f : String) :
    numeric_similarity (.num q) (.num q) f = 1 := by
  simp [numeric_similarity, DataTransformer.pyFloatVal, numeric_similarity_core]

theorem field_similarity_str_self (s : String) (h : s ≠ "") (f : String)
    (hf : string_sim_fields.contains f = true) :
    calculate_field_similarity (.str s) (.str s) f = some 1 := by
  unfold calculate_field_similarity
  rw [if_neg (by simp), if_pos hf]
  simp [pyStrV, string_similarity_self s h]

theorem field_similarity_num_self (q : ℚ) (f : String)
    (hf1 : string_sim_fields.contains f = false)
    (hf2 : numeric_sim_fields.contains f = true) :
    calculate_field_similarity (.num q) (.num q) f = some 1 := by
  unfold calculate_field_similarity
  rw [if_neg (by simp), if_neg (by rw [hf1]; simp), if_pos hf2,
    numeric_similarity_num_self]

/-- A string field counts as populated when it holds a nonempty string
(the engine scores an empty string 0 even against itself, treating it as
missing data). -/
def strPopulated : Val → Bool
  | .str s => s ≠ ""
  | _ => false

/-- A numeric field counts as populated when it holds a number. -/
def numPopulated : Val → Bool
  | .num _ => true
  | _ => false

/-- Formalization of the claim's "fully-populated record": every weighted
field carries a value of its kind. -/
def fullyPopulated (r : Record) : Bool :=
  strPopulated (getPy r "street_address") && strPopulated (getPy r "city") &&
  strPopulated (getPy r "state") && strPopulated (getPy r "zip_code") &&
  numPopulated (getPy r "bedrooms") && numPopulated (getPy r "bathrooms") &&
  numPopulated (getPy r "square_feet")

/-- Formalization of "every weighted field is missing on either side". -/
def allWeightedMissing (p1 p2 : Record) : Bool :=
  field_weights.all
    (fun p => getPy p1 p.1 = Val.none ∨ getPy p2 p.1 = Val.none)

theorem strPopulated_elim {v : Val} (h : strPopulated v = true) :
    ∃ s, v = .str s ∧ s ≠ "" := by
  cases v <;> simp [strPopulated] at h ⊢
  assumption

theorem numPopulated_elim {v : Val} (h : numPopulated v = true) :
    ∃ q, v = .num q := by
  cases v <;> simp [numPopulated] at h ⊢

theorem calculate_similarity_self (a : Record) (h : fullyPopulated a = true) :
    calculate_similarity a a = 1 := by
  simp only [fullyPopulated, Bool.and_eq_true] at h
  obtain ⟨⟨⟨⟨⟨⟨hsa, hci⟩, hst⟩, hzi⟩, hbe⟩, hba⟩, hsq⟩ := h
  obtain ⟨s1, he1, hn1⟩ := strPopulated_elim hsa
  obtain ⟨s2, he2, hn2⟩ := strPopulated_elim hci
  obtain ⟨s3, he3, hn3⟩ := strPopulated_elim hst
  obtain ⟨s4, he4, hn4⟩ := strPopulated_elim hzi
  obtain ⟨q5, he5⟩ := numPopulated_elim hbe
  obtain ⟨q6, he6⟩ := numPopulated_elim hba
  obtain ⟨q7, he7⟩ := numPopulated_elim hsq
  have c1 : calculate_field_similarity (getPy a "street_address")
      (getPy a "street_address") "street_address" = some 1 := by
    rw [he1]; exact field_similarity_str_self s1 hn1 _ rfl
  have c2 : calculate_field_similarity (getPy a "city")
      (getPy a "city") "city" = some 1 := by
    rw [he2]; exact field_similarity_str_self s2 hn2 _ rfl
  have c3 : calculate_field_similarity (getPy a "state")
      (getPy a "state") "state" = some 1 := by
    rw [he3]; exact field_similarity_str_self s3 hn3 _ rfl
  have c4 : calculate_field_similarity (getPy a "zip_code")
      (getPy a "zip_code") "zip_code" = some 1 := by
    rw [he4]; exact field_similarity_str_self s4 hn4 _ rfl
  have c5 : calculate_field_similarity (getPy a "bedrooms")
      (getPy a "bedrooms") "bedrooms" = some 1 := by
    rw [he5]; exact field_similarity_num_self q5 _ rfl rfl
  have c6 : calculate_field_similarity (getPy a "bathrooms")
      (getPy a "bathrooms") "bathrooms" = some 1 := by
    rw [he6]; exact field_similarity_num_self q6 _ rfl rfl
  have c7 : calculate_field_similarity (getPy a "square_feet")
      (getPy a "square_feet") "square_feet" = some 1 := by
    rw [he7]; exact field_similarity_num_self q7 _ rfl rfl
  have hfold : similarity_fold a a = (1, 1) := by
    simp only [similarity_fold, field_weights, List.foldl, c1, c2, c3, c4, c5,
      c6, c7]
    norm_num
  simp [calculate_similarity, hfold]

theorem calculate_similarity_all_missing (p1 p2 : Record)
    (h : allWeightedMissing p1 p2 = true) : calculate_similarity p1 p2 = 0 := by
  unfold allWeightedMissing at h
  have h' := List.all_eq_true.mp h
  have hf : ∀ (f : String) (w : ℚ), (f, w) ∈ field_weights →
      calculate_field_similarity (getPy p1 f) (getPy p2 f) f = Option.none := by
    intro f w hm
    have hd := h' (f, w) hm
    rw [decide_eq_true_eq] at hd
    unfold calculate_field_similarity
    rw [if_pos hd]
  have c1 := hf "street_address" (30 / 100) (by simp [field_weights])
  have c2 := hf "city" (15 / 100) (by simp [field_weights])
  have c3 := hf "state" (10 / 100) (by simp [field_weights])
  have c4 := hf "zip_code" (15 / 100) (by simp [field_weights])
  have c5 := hf "bedrooms" (10 / 100) (by simp [field_weights])
  have c6 := hf "bathrooms" (10 / 100) (by simp [field_weights])
  have c7 := hf "square_feet" (10 / 100) (by simp [field_weights])
  have hfold : similarity_fold p1 p2 = (0, 0) := by
    simp only [similarity_fold, field_weights, List.foldl, c1, c2, c3, c4, c5,
      c6, c7]
  simp [calculate_similarity, hfold]

end DeduplicationEngine

/-- A record with every weighted field populated, used by witnesses. -/
def sampleFullRecord : Record :=
  [("street_address", Val.str "123 Main St"), ("city", Val.str "Austin"),
   ("state", Val.str "TX"), ("zip_code", Val.str "78701"),
   ("bedrooms", Val.num 3), ("bathrooms", Val.num 2),
   ("square_feet", Val.num 1500)]

/-- C2: the composite similarity score lies in `[0, 1]` for every pair of
records; a fully-populated record has similarity 1.0 with itself; and when
every weighted field is missing on either side, the comparison returns 0
through the zero-total-weight guard, without dividing by zero. -/
theorem similarity_in_range_self_one_empty_zero (p1 p2 a : Record) :
    (0 ≤ DeduplicationEngine.calculate_similarity p1 p2 ∧
      DeduplicationEngine.calculate_similarity p1 p2 ≤ 1) ∧
    (DeduplicationEngine.fullyPopulated a = true →
      DeduplicationEngine.calculate_similarity a a = 1) ∧
    (DeduplicationEngine.allWeightedMissing p1 p2 = true →
      DeduplicationEngine.calculate_similarity p1 p2 = 0) :=
  ⟨DeduplicationEngine.calculate_similarity_mem p1 p2,
   DeduplicationEngine.calculate_similarity_self a,
   DeduplicationEngine.calculate_similarity_all_missing p1 p2⟩

/-- Witness for C2 at concrete records: a populated record scores 1.0
against itself, and two empty records score 0. -/
theorem similarity_in_range_self_one_empty_zero_witness :
    DeduplicationEngine.fullyPopulated sampleFullRecord = true ∧
    DeduplicationEngine.calculate_similarity sampleFullRecord sampleFullRecord = 1 ∧
    DeduplicationEngine.allWeightedMissing [] [] = true ∧
    DeduplicationEngine.calculate_similarity [] [] = 0 :=
  ⟨by decide,
   (similarity_in_range_self_one_empty_zero [] [] sampleFullRecord).2.1 (by decide),
   by decide,
   (similarity_in_range_self_one_empty_zero [] [] sampleFullRecord).2.2 (by decide)⟩

/-- A populated record that also carries the identifiers the duplicate check
reads, used by witnesses. -/
def sampleDupRecord : Record :=
  sampleFullRecord ++ [("external_id", Val.str "x1"), ("data_source", Val.str "zillow")]

/-- C10: `is_duplicate` never propagates an exception: a raise in the
exact-match database lookup is caught and the record is classified unique
(`False`), even when the fuzzy candidate pool would have matched; and a
raise inside the candidate search is swallowed by `_find_similar_properties`
itself, so the fuzzy pass sees no candidates and also reports `False`. -/
theorem is_duplicate_error_returns_false (r : Record)
    (dbC : Except Unit (List Record)) :
    (pyTruthy (getPy r "external_id") = true →
      pyTruthy (getPy r "data_source") = true →
        DeduplicationEngine.is_duplicate (.error ()) dbC r = false) ∧
    DeduplicationEngine.is_duplicate (.ok false) (.error ()) r = false := by
  constructor
  · intro h1 h2
    simp [DeduplicationEngine.is_duplicate, DeduplicationEngine.is_duplicate_chain,
      DeduplicationEngine.is_exact_duplicate, h1, h2, Bind.bind, Except.bind]
  · have hfind : DeduplicationEngine.find_similar_properties (.error ()) r = [] := by
      unfold DeduplicationEngine.find_similar_properties
      split_ifs <;> rfl
    have hex : DeduplicationEngine.is_exact_duplicate (.ok false) r = .ok false := by
      unfold DeduplicationEngine.is_exact_duplicate
      split_ifs <;> rfl
    simp [DeduplicationEngine.is_duplicate, DeduplicationEngine.is_duplicate_chain,
      hex, hfind, Bind.bind, Except.bind, Pure.pure, Except.pure]

/-- Witness for C10: a record whose fuzzy pool contains itself (similarity
1.0 ≥ 0.85) is still reported non-duplicate when the exact lookup raises. -/
theorem is_duplicate_error_returns_false_witness :
    DeduplicationEngine.is_duplicate (.error ()) (.ok [sampleDupRecord])
      sampleDupRecord = false ∧
    DeduplicationEngine.is_duplicate (.ok false) (.error ())
      sampleDupRecord = false :=
  ⟨(is_duplicate_error_returns_false sampleDupRecord (.ok [sampleDupRecord])).1
      (by decide) (by decide),
   (is_duplicate_error_returns_false sampleDupRecord (.error ())).2⟩

/-- A record whose `features` field holds a truthy non-dict value, so that
`_extract_property_details` raises `AttributeError` on `.update`. -/
def sampleBadFeaturesRecord : Record :=
  [("description", Val.str "pool"), ("features", Val.num 5)]

set_option maxRecDepth 100000 in
/-- C8 (counterexample): a record on which the transform stage raises is
*not* rejected: `transform_property_data` catches the exception and returns
the original record, and the batch transform keeps that record in its
output, flowing it downstream untransformed. -/
theorem transform_exception_record_not_rejected :
    (DataTransformer.transform_chain sampleBadFeaturesRecord).isOk = false ∧
    DataTransformer.transform_property_data sampleBadFeaturesRecord =
      sampleBadFeaturesRecord ∧
    DataProcessor.transform_data ["description", "features"]
      [sampleBadFeaturesRecord] = [sampleBadFeaturesRecord] :=
  ⟨of_decide_eq_true (by with_unfolding_all rfl),
   of_decide_eq_true (by with_unfolding_all rfl),
   of_decide_eq_true (by with_unfolding_all rfl)⟩

/-- C8 (amended): a per-record transform exception is contained — the batch
transform never drops (or aborts on) a record, and a record on which the
transform chain raises is retained in its original, untransformed form
rather than rejected. -/
theorem transform_failure_contained (cols : List String) (rows : List Record) :
    (DataProcessor.transform_data cols rows).length = rows.length ∧
    (∀ r : Record, (DataTransformer.transform_chain r).isOk = false →
      DataTransformer.transform_property_data r = r) := by
  constructor
  · simp [DataProcessor.transform_data]
  · intro r h
    unfold DataTransformer.transform_property_data
    cases hc : DataTransformer.transform_chain r with
    | ok t => rw [hc] at h; simp [Except.isOk, Except.toBool] at h
    | error e => rfl

set_option maxRecDepth 100000 in
/-- Witness for C8 at a concrete batch containing a record whose transform
raises. -/
theorem transform_failure_contained_witness :
    (DataProcessor.transform_data ["description", "features"]
      [sampleBadFeaturesRecord]).length = 1 ∧
    DataTransformer.transform_property_data sampleBadFeaturesRecord =
      sampleBadFeaturesRecord :=
  ⟨(transform_failure_contained ["description", "features"]
      [sampleBadFeaturesRecord]).1,
   (transform_failure_contained [] []).2 sampleBadFeaturesRecord
      (of_decide_eq_true (by with_unfolding_all rfl))⟩

/-- The claim's suffix-abbreviation table (the five suffixes the engine
normalizes), in lower case for the claim-side normal form. -/
def claimStreetAbbrevs : List (String × String) :=
  [("street", "st"), ("avenue", "ave"), ("boulevard", "blvd"),
   ("drive", "dr"), ("road", "rd")]

/-- Claim-side normal form of one address component: lower-cased,
whitespace-collapsed and trimmed, with the common street-suffix words
abbreviated. Written from the claim's words, to state C9 as given. -/
def claimFieldNorm (s : String) : String :=
  ⟨claimStreetAbbrevs.foldl (fun l p => replaceWordCI p.1.data p.2.data false l)
    (pyLowerChars (collapseWsChars (pyStripChars s.data)))⟩

/-- Claim-side zip normal form: trimmed and truncated to its first five
characters (the first five digits for a leading-digit zip). -/
def claimZipNorm (z : String) : String := ⟨(pyStripChars z.data).take 5⟩

/-- The claim's equivalence on address records: same normalized
street+city+state+zip ignoring case, whitespace and common street-suffix
abbreviations, with the zip truncated to five digits. -/
def claimAddressEquiv (r1 r2 : Record) : Bool :=
  (claimFieldNorm (pyStrV (getPyD r1 "street_address" (Val.str ""))) =
    claimFieldNorm (pyStrV (getPyD r2 "street_address" (Val.str "")))) &&
  (claimFieldNorm (pyStrV (getPyD r1 "city" (Val.str ""))) =
    claimFieldNorm (pyStrV (getPyD r2 "city" (Val.str "")))) &&
  (claimFieldNorm (pyStrV (getPyD r1 "state" (Val.str ""))) =
    claimFieldNorm (pyStrV (getPyD r2 "state" (Val.str "")))) &&
  (claimZipNorm (pyStrV (getPyD r1 "zip_code" (Val.str ""))) =
    claimZipNorm (pyStrV (getPyD r2 "zip_code" (Val.str ""))))

def zipRecordA : Record :=
  [("street_address", Val.str "123 Main St"), ("city", Val.str "Austin"),
   ("state", Val.str "TX"), ("zip_code", Val.str "78701")]

def zipRecordB : Record :=
  [("street_address", Val.str "123 Main St"), ("city", Val.str "Austin"),
   ("state", Val.str "TX"), ("zip_code", Val.str "78701-1234")]

set_option maxRecDepth 100000 in
/-- C9 (counterexample): two records that are equivalent under the claim's
normalization — identical except that one zip carries a `+4` suffix, which
the claim says is truncated away — receive *different* fingerprints from
`create_address_hash`, because it never truncates the zip (nor collapses
internal whitespace). -/
theorem address_hash_zip_not_truncated :
    claimAddressEquiv zipRecordA zipRecordB = true ∧
    DeduplicationEngine.create_address_hash zipRecordA ≠
      DeduplicationEngine.create_address_hash zipRecordB :=
  ⟨of_decide_eq_true (by with_unfolding_all rfl),
   of_decide_eq_true (by with_unfolding_all rfl)⟩

set_option maxRecDepth 100000 in
/-- C9 (amended): fingerprints of two address records are equal whenever
street, city and state agree ignoring case and leading/trailing whitespace
and the zips agree exactly after trimming; the five suffix words
street/avenue/boulevard/drive/road are additionally identified with their
abbreviations (so "123 Main Street" and "123 Main St" collide). Internal
whitespace differences and zip+4 suffixes are distinguished. -/
theorem create_address_hash_normalization (r1 r2 : Record)
    (hs : pyStrip (pyLower (pyStrV (getPyD r1 "street_address" (Val.str "")))) =
      pyStrip (pyLower (pyStrV (getPyD r2 "street_address" (Val.str "")))))
    (hc : pyStrip (pyLower (pyStrV (getPyD r1 "city" (Val.str "")))) =
      pyStrip (pyLower (pyStrV (getPyD r2 "city" (Val.str "")))))
    (hst : pyStrip (pyLower (pyStrV (getPyD r1 "state" (Val.str "")))) =
      pyStrip (pyLower (pyStrV (getPyD r2 "state" (Val.str "")))))
    (hz : pyStrip (pyStrV (getPyD r1 "zip_code" (Val.str ""))) =
      pyStrip (pyStrV (getPyD r2 "zip_code" (Val.str "")))) :
    DeduplicationEngine.create_address_hash r1 =
      DeduplicationEngine.create_address_hash r2 ∧
    DeduplicationEngine.create_address_hash
      [("street_address", Val.str "123 Main Street")] =
    DeduplicationEngine.create_address_hash
      [("street_address", Val.str "123 Main St")] := by
  constructor
  · unfold DeduplicationEngine.create_address_hash
    rw [hs, hc, hst, hz]
  · exact of_decide_eq_true (by with_unfolding_all rfl)

def zipRecordC : Record :=
  [("street_address", Val.str " 123 MAIN ST"), ("city", Val.str "AUSTIN "),
   ("state", Val.str "tx"), ("zip_code", Val.str " 78701 ")]

set_option maxRecDepth 100000 in
/-- Witness for C9 (amended): records differing only in case and
leading/trailing whitespace receive the same fingerprint. -/
theorem create_address_hash_normalization_witness :
    DeduplicationEngine.create_address_hash zipRecordA =
      DeduplicationEngine.create_address_hash zipRecordC :=
  (create_address_hash_normalization zipRecordA zipRecordC
    (of_decide_eq_true (by with_unfolding_all rfl))
    (of_decide_eq_true (by with_unfolding_all rfl))
    (of_decide_eq_true (by with_unfolding_all rfl))
    (of_decide_eq_true (by with_unfolding_all rfl))).1

/-- Lookup into the feature map of a record (`None` when `features` is
absent or not a dict). -/
def featuresLookup (r : Record) (k : String) : Option Val :=
  match getPy r "features" with
  | .dict d => d.lookup k
  | _ => Option.none

theorem lookup_fill_one_ne (r : Record) (k : String) (present : Bool)
    (ext : Option ℚ) (fld : String) (h : fld ≠ k) :
    (DataTransformer.fill_one r k present ext).lookup fld = r.lookup fld := by
  unfold DataTransformer.fill_one
  split_ifs with hp
  · cases ext with
    | some b => exact lookup_setPy_ne r k _ fld h
    | none => rfl
  · rfl

theorem lookup_fill_details_features (r : Record) (ft : String) :
    (DataTransformer.fill_details r ft).lookup "features" =
      r.lookup "features" := by
  unfold DataTransformer.fill_details
  rw [lookup_fill_one_ne _ _ _ _ _ (by decide),
    lookup_fill_one_ne _ _ _ _ _ (by decide),
    lookup_fill_one_ne _ _ _ _ _ (by decide)]

theorem lookup_dict_update_not_mem (d2 : List (String × Val)) (k : String)
    (hk : k ∉ d2.map Prod.fst) :
    ∀ d1, (DataTransformer.dict_update d1 d2).lookup k = d1.lookup k := by
  induction d2 with
  | nil => intro d1; rfl
  | cons p t ih =>
    intro d1
    simp only [List.map_cons, List.mem_cons, not_or] at hk
    show (DataTransformer.dict_update (setPy d1 p.1 p.2) t).lookup k = _
    rw [ih hk.2, lookup_setPy_ne d1 p.1 p.2 k hk.1]

theorem lookup_dict_update_mem_true (d2 : List (String × Val)) (k : String)
    (hk : k ∈ d2.map Prod.fst) (hall : ∀ p ∈ d2, p.2 = Val.bool true) :
    ∀ d1, (DataTransformer.dict_update d1 d2).lookup k = some (Val.bool true) := by
  induction d2 with
  | nil => simp at hk
  | cons p t ih =>
    intro d1
    show (DataTransformer.dict_update (setPy d1 p.1 p.2) t).lookup k = _
    by_cases hmem : k ∈ t.map Prod.fst
    · exact ih hmem (fun q hq => hall q (List.mem_cons_of_mem _ hq)) _
    · have hkp : k = p.1 := by
        simp only [List.map_cons, List.mem_cons] at hk
        tauto
      rw [lookup_dict_update_not_mem t k hmem, hkp, lookup_setPy_self,
        hall p (List.mem_cons_self p t)]

theorem extract_features_all_true (t : String) :
    ∀ p ∈ DataTransformer.extract_features t, p.2 = Val.bool true := by
  unfold DataTransformer.extract_features
  apply foldl_induction
    (P := fun l : List (String × Val) => ∀ p ∈ l, p.2 = Val.bool true)
  · intro p hp; simp at hp
  · intro acc hacc x hx
    by_cases h : x.2.any (fun kw => pyContains t kw)
    · rw [if_pos h]
      intro p hp
      rcases List.mem_append.mp hp with h1 | h1
      · exact hacc p h1
      · simp only [List.mem_singleton] at h1
        rw [h1]
    · rw [if_neg h]
      exact hacc

/-- C7 (amended): when keyword-derived features are merged with a
pre-existing feature map, the *keyword-derived* value (always `True`) wins
on conflict — `existing.update(extracted)` overwrites — while keys not
produced by the keyword scan keep their pre-existing value. -/
theorem feature_merge_keyword_value_wins (r : Record) (k : String) (res : Record)
    (hres : DataTransformer.extract_property_details r = .ok res) :
    (k ∈ (DataTransformer.extract_features (DataTransformer.full_text r)).map
        Prod.fst →
      featuresLookup res k = some (Val.bool true)) ∧
    (k ∉ (DataTransformer.extract_features (DataTransformer.full_text r)).map
        Prod.fst →
      featuresLookup res k = featuresLookup r k) := by
  simp only [DataTransformer.extract_property_details] at hres
  by_cases hft : DataTransformer.full_text r = ""
  · rw [if_pos hft] at hres
    injection hres with hres
    subst hres
    have hempty : DataTransformer.extract_features (DataTransformer.full_text r) =
        [] := by
      rw [hft]
      exact of_decide_eq_true (by with_unfolding_all rfl)
    constructor
    · intro hk
      rw [hempty] at hk
      simp at hk
    · intro _
      rfl
  · rw [if_neg hft] at hres
    by_cases hfe :
        (DataTransformer.extract_features (DataTransformer.full_text r)).isEmpty
    · rw [if_pos hfe] at hres
      injection hres with hres
      subst hres
      constructor
      · intro hk
        rw [List.isEmpty_iff.mp hfe] at hk
        simp at hk
      · intro _
        unfold featuresLookup getPy
        rw [lookup_fill_details_features]
    · rw [if_neg hfe] at hres
      rcases hex : (if pyTruthy (getPyD (DataTransformer.fill_details r
          (DataTransformer.full_text r)) "features" (Val.dict []))
        then getPyD (DataTransformer.fill_details r
          (DataTransformer.full_text r)) "features" (Val.dict [])
        else Val.dict []) with s | q | b | _ | l | d <;> rw [hex] at hres
      · exact absurd hres (by simp)
      · exact absurd hres (by simp)
      · exact absurd hres (by simp)
      · exact absurd hres (by simp)
      · exact absurd hres (by simp)
      · injection hres with hres
        subst hres
        have hget : getPy (setPy (DataTransformer.fill_details r
            (DataTransformer.full_text r)) "features"
            (.dict (DataTransformer.dict_update d
              (DataTransformer.extract_features (DataTransformer.full_text r)))))
            "features" =
            .dict (DataTransformer.dict_update d
              (DataTransformer.extract_features (DataTransformer.full_text r))) :=
          getPy_setPy_self _ _ _
        have hfl : featuresLookup (setPy (DataTransformer.fill_details r
            (DataTransformer.full_text r)) "features"
            (.dict (DataTransformer.dict_update d
              (DataTransformer.extract_features (DataTransformer.full_text r)))))
            k =
            (DataTransformer.dict_update d
              (DataTransformer.extract_features (DataTransformer.full_text r))).lookup
              k := by
          unfold featuresLookup
          rw [hget]
        constructor
        · intro hk
          rw [hfl]
          exact lookup_dict_update_mem_true _ k hk
            (extract_features_all_true _) d
        · intro hk
          rw [hfl, lookup_dict_update_not_mem _ k hk d]
          have hlk : (DataTransformer.fill_details r
              (DataTransformer.full_text r)).lookup "features" =
              r.lookup "features" := lookup_fill_details_features r _
          unfold getPyD at hex
          rw [hlk] at hex
          by_cases htr : pyTruthy ((r.lookup "features").getD (Val.dict []))
          · rw [if_pos htr] at hex
            cases hlook : r.lookup "features" with
            | some v =>
              rw [hlook] at hex
              simp only [Option.getD] at hex
              unfold featuresLookup getPy
              rw [hlook]
              simp only [Option.getD, hex]
            | none =>
              rw [hlook] at hex
              simp only [Option.getD] at hex
              obtain rfl : ([] : List (String × Val)) = d := by
                injection hex
              unfold featuresLookup getPy
              rw [hlook]
              rfl
          · rw [if_neg htr] at hex
            obtain rfl : ([] : List (String × Val)) = d := by injection hex
            cases hlook : r.lookup "features" with
            | none =>
              unfold featuresLookup getPy
              rw [hlook]
              rfl
            | some v =>
              rw [hlook] at htr
              simp only [Option.getD] at htr
              unfold featuresLookup getPy
              rw [hlook]
              simp only [Option.getD]
              cases v <;> simp [pyTruthy] at htr ⊢
              rename_i dd
              have hdd : dd = [] := by simpa using htr
              rw [hdd]
              rfl

/-- A record with a pre-existing feature map `{'pool': False}` and a
description that triggers the `pool` keyword. -/
def conflictFeaturesRecord : Record :=
  [("description", Val.str "has a pool"),
   ("features", Val.dict [("pool", Val.bool false)])]

/-- The transformed record: the keyword-derived `True` overwrote the
pre-existing `False`. -/
def conflictMergedRecord : Record :=
  [("description", Val.str "has a pool"),
   ("features", Val.dict [("pool", Val.bool true)])]

set_option maxRecDepth 100000 in
/-- C7 (counterexample): for key `pool`, present in both the pre-existing
map (as `False`) and the keyword-derived map (as `True`), the merged map
keeps the *keyword-derived* value `True`, not the pre-existing one: the
claim that the pre-existing value wins on conflict is false. -/
theorem feature_merge_preexisting_loses :
    (DataTransformer.extract_property_details conflictFeaturesRecord).toOption =
      some conflictMergedRecord ∧
    featuresLookup conflictFeaturesRecord "pool" = some (Val.bool false) ∧
    featuresLookup conflictMergedRecord "pool" = some (Val.bool true) :=
  ⟨of_decide_eq_true (by with_unfolding_all rfl),
   of_decide_eq_true (by with_unfolding_all rfl),
   of_decide_eq_true (by with_unfolding_all rfl)⟩

set_option maxRecDepth 100000 in
/-- Witness for C7 (amended) at the concrete conflicting record. -/
theorem feature_merge_keyword_value_wins_witness :
    featuresLookup conflictMergedRecord "pool" = some (Val.bool true) :=
  (feature_merge_keyword_value_wins conflictFeaturesRecord "pool"
      conflictMergedRecord
      (by
        have h : (DataTransformer.extract_property_details
            conflictFeaturesRecord).toOption = some conflictMergedRecord :=
          of_decide_eq_true (by with_unfolding_all rfl)
        cases hc : DataTransformer.extract_property_details
            conflictFeaturesRecord with
        | ok t => rw [hc] at h; simp [Except.toOption] at h; rw [h]
        | error e => rw [hc] at h; simp [Except.toOption] at h)).1
    (of_decide_eq_true (by with_unfolding_all rfl))

theorem counterWindowCount_cons (e : RLEntry) (l : List RLEntry) (σ : ℚ) :
    counterWindowCount (e :: l) σ =
      (if e.winStart = σ then 1 else 0) + counterWindowCount l σ := by
  unfold counterWindowCount
  rw [List.filter_cons]
  by_cases h : e.winStart = σ
  · rw [if_pos (by simpa using h), if_pos h, List.length_cons]
    omega
  · rw [if_neg (by simpa using h), if_neg h]
    omega

/-- Each `_apply_rate_limiting` call either keeps the counter window and
increments a counter that was strictly below the quota, or opens a strictly
later window with the counter at 1. -/
theorem rl_step_cases (cfg : RLConfig) (h1 : 1 ≤ cfg.requests_per_minute)
    (s : RLState) (t j : ℚ) :
    ((rl_step cfg s t j).1.start_time = s.start_time ∧
      (rl_step cfg s t j).1.request_count = s.request_count + 1 ∧
      s.request_count < cfg.requests_per_minute) ∨
    (s.start_time < (rl_step cfg s t j).1.start_time ∧
      (rl_step cfg s t j).1.request_count = 1) := by
  by_cases hA : 60 ≤ t - s.start_time
  · right
    have hq : ¬ cfg.requests_per_minute ≤ 0 := by omega
    refine ⟨?_, ?_⟩
    · simp only [rl_step, if_pos hA, if_neg hq]
      linarith
    · have hq0 : ¬ cfg.requests_per_minute = 0 := by omega
      simp [rl_step, if_pos hA, if_neg hq, hq0]
  · by_cases hB : cfg.requests_per_minute ≤ s.request_count
    · right
      have hsl : 0 < 60 - (t - s.start_time) := by linarith [not_le.mp hA]
      refine ⟨?_, ?_⟩
      · simp only [rl_step, if_neg hA, if_pos hB, if_pos hsl]
        linarith
      · have ht60 : t - s.start_time < 60 := by linarith
        simp [rl_step, if_neg hA, if_pos hB, if_pos hsl, ht60]
    · left
      refine ⟨?_, ?_, not_le.mp hB⟩ <;>
        simp [rl_step, if_neg hA, if_neg hB]

/-- Invariant of a rate-limited run: no request is ever counted against a
window older than the live one, and each counter window accumulates at most
the quota. -/
theorem rl_run_counter_invariant (cfg : RLConfig)
    (h1 : 1 ≤ cfg.requests_per_minute) :
    ∀ (inputs : List (ℚ × ℚ)) (s : RLState),
      s.request_count ≤ cfg.requests_per_minute →
      (∀ σ, σ < s.start_time →
        counterWindowCount (rl_run cfg s inputs) σ = 0) ∧
      (∀ σ, counterWindowCount (rl_run cfg s inputs) σ ≤
        (if σ = s.start_time
         then cfg.requests_per_minute - s.request_count
         else cfg.requests_per_minute)) := by
  intro inputs
  induction inputs with
  | nil =>
    intro s _
    constructor
    · intro σ _; rfl
    · intro σ
      have h0 : counterWindowCount (rl_run cfg s []) σ = 0 := rfl
      rw [h0]
      exact Nat.zero_le _
  | cons tj rest ih =>
    intro s hcount
    obtain ⟨t, j⟩ := tj
    have hwin : (rl_step cfg s t j).2.winStart =
        (rl_step cfg s t j).1.start_time := rfl
    have hrun : rl_run cfg s ((t, j) :: rest) =
        (rl_step cfg s t j).2 :: rl_run cfg (rl_step cfg s t j).1 rest := rfl
    rcases rl_step_cases cfg h1 s t j with ⟨heq, hcnt, hlt⟩ | ⟨hgt, hcnt⟩
    · -- same counter window, counter incremented below the quota
      have hc' : (rl_step cfg s t j).1.request_count ≤ cfg.requests_per_minute := by
        omega
      have IH := ih (rl_step cfg s t j).1 hc'
      constructor
      · intro σ hσ
        rw [hrun, counterWindowCount_cons,
          IH.1 σ (by rw [heq]; exact hσ)]
        have hne : ¬ ((rl_step cfg s t j).2.winStart = σ) := by
          rw [hwin, heq]
          exact fun hh => absurd hh.symm (ne_of_lt hσ)
        rw [if_neg hne]
      · intro σ
        rw [hrun, counterWindowCount_cons]
        have h2 := IH.2 σ
        by_cases hσ : σ = s.start_time
        · rw [if_pos hσ]
          have hps : σ = (rl_step cfg s t j).1.start_time := by rw [heq, hσ]
          rw [if_pos hps, hcnt] at h2
          have hind : (if (rl_step cfg s t j).2.winStart = σ then 1 else 0) = 1 := by
            rw [if_pos (by rw [hwin, heq, hσ])]
          rw [hind]
          omega
        · rw [if_neg hσ]
          have hps : ¬ σ = (rl_step cfg s t j).1.start_time := by
            rw [heq]; exact hσ
          rw [if_neg hps] at h2
          have hind : (if (rl_step cfg s t j).2.winStart = σ then 1 else 0) = 0 := by
            rw [if_neg (by rw [hwin, heq]; exact fun hh => hσ hh.symm)]
          rw [hind]
          omega
    · -- new counter window, counter at 1
      have hc' : (rl_step cfg s t j).1.request_count ≤ cfg.requests_per_minute := by
        omega
      have IH := ih (rl_step cfg s t j).1 hc'
      constructor
      · intro σ hσ
        rw [hrun, counterWindowCount_cons,
          IH.1 σ (lt_trans hσ hgt)]
        have hne : ¬ ((rl_step cfg s t j).2.winStart = σ) := by
          rw [hwin]
          exact fun hh => absurd hh.symm (ne_of_lt (lt_trans hσ hgt))
        rw [if_neg hne]
      · intro σ
        rw [hrun, counterWindowCount_cons]
        have h2 := IH.2 σ
        by_cases hσ' : σ = (rl_step cfg s t j).1.start_time
        · rw [if_pos hσ', hcnt] at h2
          have hind : (if (rl_step cfg s t j).2.winStart = σ then 1 else 0) ≤ 1 := by
            split_ifs <;> omega
          have hne : ¬ σ = s.start_time := by
            rw [hσ']
            exact fun hh => absurd hh.symm (ne_of_lt hgt)
          rw [if_neg hne]
          omega
        · rw [if_neg hσ'] at h2
          have hind : (if (rl_step cfg s t j).2.winStart = σ then 1 else 0) = 0 := by
            rw [if_neg (by rw [hwin]; exact fun hh => hσ' hh.symm)]
          rw [hind]
          by_cases hσ : σ = s.start_time
          · rw [if_pos hσ]
            rw [IH.1 σ (by rw [hσ]; exact hgt)]
            omega
          · rw [if_neg hσ]
            omega

/-- C5 (counterexample): with quota 1, a fetcher constructed at time 0 that
calls at t = 59 and t = 60 issues requests at 59 and 60 — two requests
inside the trailing 60-second window `(58, 118]` — because the counter uses
a fixed window that resets at t = 60, not a trailing one. -/
theorem rate_limiter_trailing_window_exceeded :
    (⟨1, 0⟩ : RLConfig).requests_per_minute = 1 ∧
    trailingWindowCount (rl_run ⟨1, 0⟩ ⟨0, 0, 0⟩ [(59, 0), (60, 0)]) 58 = 2 :=
  ⟨rfl, of_decide_eq_true (by with_unfolding_all rfl)⟩

/-- C5 (amended): the limiter enforces a fixed-window bound, not a
trailing-window one: in every execution started from a fresh fetcher, at
most `requests_per_minute` requests are counted against any one counter
window (any one value of `start_time`); a trailing 60-second window that
straddles a reset can see up to twice that (see the counterexample). -/
theorem rate_limiter_counter_window_quota (cfg : RLConfig)
    (h1 : 1 ≤ cfg.requests_per_minute) (t0 l0 : ℚ) (inputs : List (ℚ × ℚ))
    (σ : ℚ) :
    counterWindowCount (rl_run cfg ⟨t0, l0, 0⟩ inputs) σ ≤
      cfg.requests_per_minute := by
  have h := (rl_run_counter_invariant cfg h1 inputs ⟨t0, l0, 0⟩
    (Nat.zero_le _)).2 σ
  split_ifs at h <;> omega

/-- Witness for C5 (amended) at a concrete run. -/
theorem rate_limiter_counter_window_quota_witness :
    counterWindowCount (rl_run ⟨2, 0⟩ ⟨0, 0, 0⟩ [(1, 0), (2, 0), (3, 0)]) 0 ≤ 2 :=
  rate_limiter_counter_window_quota ⟨2, 0⟩ (by decide) 0 0
    [(1, 0), (2, 0), (3, 0)] 0
